import Mathlib

/-!
# Klipper exporter: the collection cycle and the probe handler

A shallow embedding of `collector.Collect` (collector/collector.go) and of
`handler` (main.go), followed by the properties established about them.

Conventions of the embedding:

* a Go `string` is its sequence of bytes (`GoString`); `len`, slicing and
  `strings.ReplaceAll` act on bytes, as in Go;
* a Go statement block (`GoM`) is given by the metrics it sends, the upstream
  calls it makes and the way it ends: normally, by `return`, or by a panic;
* the metric channel `ch` is the list `GoM.sent` (in order of sending) and
  every call of a `fetch...` method is recorded in `GoM.calls`;
* the logger calls have no effect on the channel or on control flow and are
  left out;
* `prometheus.MustNewConstMetric` is a function of the Prometheus client
  library, which is not part of the repository: it is taken to build the
  metric when the name is a valid metric name and to panic otherwise.
-/

namespace KlipperExporter

/-! ## Go values -/

/-- A Go string: a sequence of bytes. -/
abbrev GoString := List UInt8

/-- The bytes (UTF-8) of a string literal. -/
def str (s : String) : GoString := s.data.flatMap String.utf8EncodeChar

/-- A finite `float64`, written as `mantissa * 10 ^ exponent`.  The collector
never computes with these values; it only forwards them. -/
structure Float64 where
  mantissa : Int
  exponent : Int
  deriving DecidableEq, Repr

/-- The value handed to `prometheus.MustNewConstMetric`: either a `float64`
field forwarded as it is, or the conversion `float64(n)` of an integer. -/
inductive GaugeValue where
  | float (x : Float64)
  | ofInt (n : Int)
  deriving DecidableEq, Repr

/-- The result of `prometheus.MustNewConstMetric(prometheus.NewDesc(name, help,
nil, nil), prometheus.GaugeValue, value)`. -/
structure Metric where
  name : GoString
  help : GoString
  value : GaugeValue
  deriving DecidableEq, Repr

/-- The value Go decodes a JSON document into when the target is
`interface{}`. A JSON object becomes a `map[string]interface{}`, given here
by its entries in the order in which `range` visits them. -/
inductive JSONValue where
  | null
  | bool (b : Bool)
  | number (x : Float64)
  | string (s : GoString)
  | array (xs : List JSONValue)
  | object (kvs : List (GoString × JSONValue))

/-! ## The decoded upstream responses

The struct declarations are read off the field accesses in `Collect`. A map
is given by its entries in the order in which `range` visits them. -/

/-- Modelled from the spec: one sample snapshot of the stats answer (the struct
is declared outside `collector.go`), with the fields `Collect` reads. -/
structure MoonrakerStat where
  MemUnits : GoString
  Memory : Int
  CpuUsage : Float64
  deriving DecidableEq, Repr

/-- The field `SystemCpuUsage` of the stats answer. -/
structure SystemCpuUsageStat where
  Cpu : Float64
  deriving DecidableEq, Repr

/-- The field `SystemMemory` of the stats answer. -/
structure SystemMemoryStat where
  Total : Int
  Available : Int
  Used : Int
  deriving DecidableEq, Repr

/-- Modelled from the spec: the counters of one network interface (the struct
is declared outside `collector.go`), with the fields `Collect` reads. -/
structure NetworkStat where
  RxBytes : Int
  TxBytes : Int
  RxPackets : Int
  TxPackets : Int
  RxErrs : Int
  TxErrs : Int
  RxDrop : Int
  TxDrop : Int
  Bandwidth : Float64
  deriving DecidableEq, Repr

/-- Modelled from the spec: the payload of the stats endpoint (the struct is
declared outside `collector.go`), with the fields `Collect` reads. -/
structure ProcessStatsResult where
  MoonrakerStats : List MoonrakerStat
  WebsocketConnections : Int
  CpuTemp : Float64
  SystemCpuUsage : SystemCpuUsageStat
  SystemMemory : SystemMemoryStat
  SystemUptime : Float64
  Network : List (GoString × NetworkStat)
  deriving DecidableEq, Repr

/-- The `result` envelope of the stats answer. -/
structure ProcessStatsResponse where
  Result : ProcessStatsResult
  deriving DecidableEq, Repr

/-- Modelled from the spec: the disk usage of the directory-info answer, in
bytes. -/
structure DiskUsageStat where
  Total : Int
  Used : Int
  Free : Int
  deriving DecidableEq, Repr

/-- The payload of the directory-info endpoint. -/
structure DirectoryInfoResult where
  DiskUsage : DiskUsageStat
  deriving DecidableEq, Repr

/-- The `result` envelope of the directory-info answer. -/
structure DirectoryInfoResponse where
  Result : DirectoryInfoResult
  deriving DecidableEq, Repr

/-- Modelled from the spec: a job record of the job queue; only the number of
records is read. -/
structure QueuedJob where
  JobId : GoString
  deriving DecidableEq, Repr

/-- The payload of the job-queue endpoint. -/
structure JobQueueResult where
  QueuedJobs : List QueuedJob
  deriving DecidableEq, Repr

/-- The `result` envelope of the job-queue answer. -/
structure JobQueueResponse where
  Result : JobQueueResult
  deriving DecidableEq, Repr

/-- Modelled from the spec: the field `CpuInfo` of the system-info answer. -/
structure CpuInfoStat where
  CpuCount : Int
  deriving DecidableEq, Repr

/-- The field `SystemInfo` of the system-info answer. -/
structure SystemInfoStat where
  CpuInfo : CpuInfoStat
  deriving DecidableEq, Repr

/-- The payload of the system-info endpoint. -/
structure SystemInfoResult where
  SystemInfo : SystemInfoStat
  deriving DecidableEq, Repr

/-- The `result` envelope of the system-info answer. -/
structure SystemInfoResponse where
  Result : SystemInfoResult
  deriving DecidableEq, Repr

/-- Modelled from the spec: the answer of the temperature store, a mapping from
sensor names to generic JSON values, in its `result` envelope. -/
structure TemperatureResponse where
  Result : List (GoString × JSONValue)

/-- What a `fetch...` method returns: the pair `(result, err)`. `result` is
`none` for a nil pointer and `failed` says that `err != nil`. The pair is not
constrained further: what a method returns next to an error is decided outside
`collector.go`. -/
structure Fetched (α : Type) where
  result : Option α
  failed : Bool

/-- A successful fetch: `(&response, nil)`. -/
def Fetched.ok {α : Type} (a : α) : Fetched α := ⟨some a, false⟩

/-- The five upstream endpoints. -/
inductive Endpoint where
  | procStats
  | directoryInfo
  | jobQueue
  | systemInfo
  | temperatureStore
  deriving DecidableEq, Repr

/-- The upstream hosts during one cycle: what each fetch method returns for a
given target. The fetch methods themselves are declared outside the sources
at hand; they enter the embedding through this record. -/
structure Upstream where
  procStats : GoString → Fetched ProcessStatsResponse
  directoryInfo : GoString → Fetched DirectoryInfoResponse
  jobQueue : GoString → Fetched JobQueueResponse
  systemInfo : GoString → Fetched SystemInfoResponse
  temperature : GoString → Fetched TemperatureResponse

/-! ## Statement blocks -/

/-- How a block ends. -/
inductive Completion (α : Type) where
  | normal (a : α)
  | returned
  | panicked
  deriving DecidableEq, Repr

/-- A block of Go statements, given by what it does: the metrics it sends
into `ch` (in order), the upstream calls it makes (in order) and how it
ends. Nothing in `Collect` reads the channel or the record of calls, so a
block is determined by what it appends to them. -/
structure GoM (α : Type) where
  completion : Completion α
  sent : List Metric
  calls : List Endpoint
  deriving DecidableEq, Repr

/-- Sequencing: the rest of the block runs only after normal completion. -/
def GoM.bind {α β : Type} (x : GoM α) (f : α → GoM β) : GoM β :=
  match x.completion with
  | Completion.normal a =>
    { completion := (f a).completion
      sent := x.sent ++ (f a).sent
      calls := x.calls ++ (f a).calls }
  | Completion.returned =>
    { completion := Completion.returned, sent := x.sent, calls := x.calls }
  | Completion.panicked =>
    { completion := Completion.panicked, sent := x.sent, calls := x.calls }

instance : Monad GoM where
  pure a := { completion := Completion.normal a, sent := [], calls := [] }
  bind := GoM.bind

/-- The statement `ch <- m`. -/
def send (m : Metric) : GoM Unit :=
  { completion := Completion.normal (), sent := [m], calls := [] }

/-- An upstream call is being made. -/
def upstreamCall (e : Endpoint) : GoM Unit :=
  { completion := Completion.normal (), sent := [], calls := [e] }

/-- The statement `return`. -/
def goReturn {α : Type} : GoM α :=
  { completion := Completion.returned, sent := [], calls := [] }

/-- A run-time panic. -/
def goPanic {α : Type} : GoM α :=
  { completion := Completion.panicked, sent := [], calls := [] }

/-- The loop `for _, x := range xs { body }`. -/
def forRange {α : Type} : List α → (α → GoM Unit) → GoM Unit
  | [], _ => pure ()
  | x :: xs, body => do
    body x
    forRange xs body

/-- The statement `if cond { body }` without an `else`. -/
def ifThen (cond : Bool) (body : GoM Unit) : GoM Unit :=
  if cond then body else pure ()

/-- Dereferencing: `p.Field` panics on a nil pointer. -/
def deref {α : Type} : Option α → GoM α
  | some a => pure a
  | none => goPanic

/-- Indexing `xs[i]`: panics when `i` is out of range. -/
def index {α : Type} (xs : List α) (i : Int) : GoM α :=
  if i < 0 then goPanic
  else
    match xs.get? i.toNat with
    | some a => pure a
    | none => goPanic

/-- Slicing `s[0:hi]` of a string: panics when `hi` is out of range. -/
def sliceTo (s : GoString) (hi : Int) : GoM GoString :=
  if hi < 0 ∨ (s.length : Int) < hi then goPanic
  else pure (s.take hi.toNat)

/-- The type assertion `v.(map[string]interface{})`. -/
def assertMap : JSONValue → GoM (List (GoString × JSONValue))
  | JSONValue.object kvs => pure kvs
  | _ => goPanic

/-- The type assertion `v.([]interface{})`. -/
def assertSlice : JSONValue → GoM (List JSONValue)
  | JSONValue.array xs => pure xs
  | _ => goPanic

/-- The type assertion `v.(float64)`. -/
def assertFloat64 : JSONValue → GoM Float64
  | JSONValue.number x => pure x
  | _ => goPanic

/-- The Go function `strings.ReplaceAll(s, old, new)` for one-byte `old` and
`new`: every occurrence of the byte is replaced. -/
def ReplaceAll (s : GoString) (old new : UInt8) : GoString :=
  s.map (fun b => if b = old then new else b)

/-- The byte of a space. -/
def space : UInt8 := 32

/-- The byte of an underscore. -/
def underscore : UInt8 := 95

/-- The Go function `slices.Contains`. -/
def Contains (s : List GoString) (v : GoString) : Bool := s.contains v

/-- The gauge metric with the given name, help text and value. -/
def gauge (name help : GoString) (value : GaugeValue) : Metric := ⟨name, help, value⟩

/-- A byte that may begin a metric name: a letter, an underscore or a colon. -/
def validFirstByte (b : UInt8) : Bool :=
  (97 ≤ b && b ≤ 122) || (65 ≤ b && b ≤ 90) || b == 95 || b == 58

/-- A byte that may occur in a metric name: a letter, a digit, an underscore
or a colon. -/
def validNameByte (b : UInt8) : Bool :=
  validFirstByte b || (48 ≤ b && b ≤ 57)

/-- The check `model.IsValidMetricName` of the Prometheus client library, which
`prometheus.NewDesc` applies to the name: a metric name matches
`[a-zA-Z_:][a-zA-Z0-9_:]*`. The library is not part of the repository; the
rule is the one of its documentation. -/
def IsValidMetricName : GoString → Bool
  | [] => false
  | b :: bs => validFirstByte b && bs.all validNameByte

/-- The call `prometheus.MustNewConstMetric(prometheus.NewDesc(name, help, nil,
nil), prometheus.GaugeValue, value)`: it builds the gauge metric, and panics
when `NewDesc` has rejected the name. -/
def MustNewConstMetric (name help : GoString) (value : GaugeValue) : GoM Metric :=
  if IsValidMetricName name then pure (gauge name help value) else goPanic

/-! ## The fetch methods -/

/-- Modelled from the spec: the method `fetchMoonrakerProcessStats` is declared
outside `collector.go`. By the contract of the upstream client a call issues
one request, here to the stats endpoint of the target, and returns a response
together with an error. -/
def fetchMoonrakerProcessStats (up : Upstream) (target : GoString) :
    GoM (Fetched ProcessStatsResponse) := do
  upstreamCall Endpoint.procStats
  pure (up.procStats target)

/-- Modelled from the spec: the method `fetchMoonrakerDirectoryInfo` is declared
outside `collector.go`; one request to the directory-info endpoint. -/
def fetchMoonrakerDirectoryInfo (up : Upstream) (target : GoString) :
    GoM (Fetched DirectoryInfoResponse) := do
  upstreamCall Endpoint.directoryInfo
  pure (up.directoryInfo target)

/-- Modelled from the spec: the method `fetchMoonrakerJobQueue` is declared
outside `collector.go`; one request to the job-queue endpoint. -/
def fetchMoonrakerJobQueue (up : Upstream) (target : GoString) :
    GoM (Fetched JobQueueResponse) := do
  upstreamCall Endpoint.jobQueue
  pure (up.jobQueue target)

/-- Modelled from the spec: the method `fetchMoonrakerSystemInfo` is declared
outside `collector.go`; one request to the system-info endpoint. -/
def fetchMoonrakerSystemInfo (up : Upstream) (target : GoString) :
    GoM (Fetched SystemInfoResponse) := do
  upstreamCall Endpoint.systemInfo
  pure (up.systemInfo target)

/-- Modelled from the spec: the method `fetchTemperatureData` is declared
outside `collector.go`; one request to the temperature-store endpoint. -/
def fetchTemperatureData (up : Upstream) (target : GoString) :
    GoM (Fetched TemperatureResponse) := do
  upstreamCall Endpoint.temperatureStore
  pure (up.temperature target)

/-! ## The collector -/

/-- The fields of `collector` that `Collect` reads (the context and the logger
are left out). -/
structure collector where
  target : GoString
  modules : List GoString
  deriving DecidableEq, Repr

/-- The constructor `New`. -/
def New (target : GoString) (modules : List GoString) : collector :=
  { target := target, modules := modules }

/-- Lines 42-85 of `Collect`: the metrics of `process_stats`. -/
def processStatsSection (result : Option ProcessStatsResponse) : GoM Unit := do
  let r ← deref result
  let stats := r.Result.MoonrakerStats
  let sample ← index stats ((stats.length : Int) - 1)
  let memUnits := sample.MemUnits
  (if memUnits ≠ str "kB" then
    pure ()
  else do
    let sample ← index stats ((stats.length : Int) - 1)
    send (← MustNewConstMetric (str "klipper_moonraker_memory_kb")
      (str "Moonraker memory usage in Kb.")
      (GaugeValue.ofInt sample.Memory)))
  let sample ← index stats ((stats.length : Int) - 1)
  send (← MustNewConstMetric (str "klipper_moonraker_cpu_usage") (str "Moonraker CPU usage.")
    (GaugeValue.float sample.CpuUsage))
  send (← MustNewConstMetric (str "klipper_moonraker_websocket_connections")
    (str "Moonraker Websocket connection count.")
    (GaugeValue.ofInt r.Result.WebsocketConnections))
  send (← MustNewConstMetric (str "klipper_system_cpu_temp")
    (str "Klipper system CPU temperature in celsius.")
    (GaugeValue.float r.Result.CpuTemp))
  send (← MustNewConstMetric (str "klipper_system_cpu") (str "Klipper system CPU usage.")
    (GaugeValue.float r.Result.SystemCpuUsage.Cpu))
  send (← MustNewConstMetric (str "klipper_system_memory_total")
    (str "Klipper system total memory.")
    (GaugeValue.ofInt r.Result.SystemMemory.Total))
  send (← MustNewConstMetric (str "klipper_system_memory_available")
    (str "Klipper system available memory.")
    (GaugeValue.ofInt r.Result.SystemMemory.Available))
  send (← MustNewConstMetric (str "klipper_system_memory_used") (str "Klipper system used memory.")
    (GaugeValue.ofInt r.Result.SystemMemory.Used))
  send (← MustNewConstMetric (str "klipper_system_uptime") (str "Klipper system uptime.")
    (GaugeValue.float r.Result.SystemUptime))

/-- Lines 89-124 of `Collect`: the body of the loop over the network map. -/
def networkInterfaceBody (entry : GoString × NetworkStat) : GoM Unit := do
  let key := entry.1
  let element := entry.2
  send (← MustNewConstMetric (str "klipper_network_" ++ key ++ str "_rx_bytes")
    (str "Klipper network recieved bytes.") (GaugeValue.ofInt element.RxBytes))
  send (← MustNewConstMetric (str "klipper_network_" ++ key ++ str "_tx_bytes")
    (str "Klipper network transmitted bytes.") (GaugeValue.ofInt element.TxBytes))
  send (← MustNewConstMetric (str "klipper_network_" ++ key ++ str "_rx_packets")
    (str "Klipper network recieved packets.") (GaugeValue.ofInt element.RxPackets))
  send (← MustNewConstMetric (str "klipper_network_" ++ key ++ str "_tx_packets")
    (str "Klipper network transmitted packets.") (GaugeValue.ofInt element.TxPackets))
  send (← MustNewConstMetric (str "klipper_network_" ++ key ++ str "_rx_errs")
    (str "Klipper network recieved errored packets.") (GaugeValue.ofInt element.RxErrs))
  send (← MustNewConstMetric (str "klipper_network_" ++ key ++ str "_tx_errs")
    (str "Klipper network transmitted errored packets.") (GaugeValue.ofInt element.TxErrs))
  send (← MustNewConstMetric (str "klipper_network_" ++ key ++ str "_rx_drop")
    (str "Klipper network recieved dropped packets.") (GaugeValue.ofInt element.RxDrop))
  send (← MustNewConstMetric (str "klipper_network_" ++ key ++ str "_tx_drop")
    (str "Klipper network transmitted dropped packtes.") (GaugeValue.ofInt element.TxDrop))
  send (← MustNewConstMetric (str "klipper_network_" ++ key ++ str "_bandwidth")
    (str "Klipper network bandwidth.") (GaugeValue.float element.Bandwidth))

/-- Lines 87-126 of `Collect`: the metrics of `network_stats`. -/
def networkStatsSection (result : Option ProcessStatsResponse) : GoM Unit := do
  let r ← deref result
  forRange r.Result.Network networkInterfaceBody

/-- Lines 131-144 of `Collect`: the metrics of `directory_info`. The error of
the fetch is discarded (`result, _ :=`). -/
def directoryInfoSection (c : collector) (up : Upstream) : GoM Unit := do
  let fetched ← fetchMoonrakerDirectoryInfo up c.target
  let r ← deref fetched.result
  send (← MustNewConstMetric (str "klipper_disk_usage_total") (str "Klipper total disk space.")
    (GaugeValue.ofInt r.Result.DiskUsage.Total))
  send (← MustNewConstMetric (str "klipper_disk_usage_used") (str "Klipper used disk space.")
    (GaugeValue.ofInt r.Result.DiskUsage.Used))
  send (← MustNewConstMetric (str "klipper_disk_usage_available")
    (str "Klipper available disk space.")
    (GaugeValue.ofInt r.Result.DiskUsage.Free))

/-- Lines 148-153 of `Collect`: the metric of `job_queue`. The error of the
fetch is discarded. -/
def jobQueueSection (c : collector) (up : Upstream) : GoM Unit := do
  let fetched ← fetchMoonrakerJobQueue up c.target
  let r ← deref fetched.result
  send (← MustNewConstMetric (str "klipper_job_queue_length") (str "Klipper job queue length.")
    (GaugeValue.ofInt (r.Result.QueuedJobs.length : Int)))

/-- Lines 158-163 of `Collect`: the metric of `system_info`. The error of the
fetch is discarded. -/
def systemInfoSection (c : collector) (up : Upstream) : GoM Unit := do
  let fetched ← fetchMoonrakerSystemInfo up c.target
  let r ← deref fetched.result
  send (← MustNewConstMetric (str "klipper_system_cpu_count") (str "Klipper system CPU count.")
    (GaugeValue.ofInt r.Result.SystemInfo.CpuInfo.CpuCount))

/-- Lines 175-183 of `Collect`: the body of the loop over the attributes of
the sensor `k`, whose sanitized name is `item`. -/
def temperatureAttributeBody (k item : GoString) (entry : GoString × JSONValue) :
    GoM Unit := do
  let k1 := entry.1
  let v1 := entry.2
  let values ← assertSlice v1
  let cut ← sliceTo k1 ((k1.length : Int) - 1)
  let label := ReplaceAll cut space underscore
  let last ← index values ((values.length : Int) - 1)
  let value ← assertFloat64 last
  send (← MustNewConstMetric (str "klipper_" ++ item ++ str "_" ++ label)
    (str "Klipper " ++ k ++ str " " ++ label) (GaugeValue.float value))

/-- Lines 171-184 of `Collect`: the body of the loop over the sensors. -/
def temperatureSensorBody (entry : GoString × JSONValue) : GoM Unit := do
  let k := entry.1
  let v := entry.2
  let item := ReplaceAll k space underscore
  let attributes ← assertMap v
  forRange attributes (temperatureAttributeBody k item)

/-- Lines 168-184 of `Collect`: the metrics of `temperature`. The error of the
fetch is discarded. -/
def temperatureSection (c : collector) (up : Upstream) : GoM Unit := do
  let fetched ← fetchTemperatureData up c.target
  let r ← deref fetched.result
  forRange r.Result temperatureSensorBody

/-- Lines 31-127 of `Collect`: the branch of the shared stats call. -/
def statsBranch (c : collector) (up : Upstream) : GoM Unit :=
  ifThen (Contains c.modules (str "process_stats") || Contains c.modules (str "network_stats")) do
    let fetched ← fetchMoonrakerProcessStats up c.target
    ifThen fetched.failed goReturn
    ifThen (Contains c.modules (str "process_stats")) (processStatsSection fetched.result)
    ifThen (Contains c.modules (str "network_stats")) (networkStatsSection fetched.result)

/-- The method `Collect`. A `return` or a panic in one branch ends the whole
method. -/
def Collect (c : collector) (up : Upstream) : GoM Unit := do
  statsBranch c up
  ifThen (Contains c.modules (str "directory_info")) (directoryInfoSection c up)
  ifThen (Contains c.modules (str "job_queue")) (jobQueueSection c up)
  ifThen (Contains c.modules (str "system_info")) (systemInfoSection c up)
  ifThen (Contains c.modules (str "temperature")) (temperatureSection c up)

/-! ## The probe handler -/

/-- The part of the request that `handler` reads: the values of each query
parameter (`r.URL.Query()`) and the `Authorization` header
(`r.Header.Get("Authorization")`, empty when the header is absent). -/
structure Request where
  query : GoString → List GoString
  authorization : GoString

/-- The process-wide settings `handler` reads: the flag `-moonraker.apikey`
and the environment variable `MOONRAKER_APIKEY`. -/
structure Settings where
  klipperApiKey : GoString
  envApiKey : GoString

/-- The method `url.Values.Get`: the first value of the key, or the empty
string when the key has no value. -/
def Get (query : GoString → List GoString) (key : GoString) : GoString :=
  match query key with
  | [] => []
  | v :: _ => v

/-- The Go function `strings.HasPrefix`. -/
def HasPrefix (s p : GoString) : Bool := p.isPrefixOf s

/-- The Go function `strings.Replace(s, old, new, 1)`: the first occurrence of
`old` in `s` is replaced by `new`. -/
def ReplaceFirst : GoString → GoString → GoString → GoString
  | [], old, new => if old = [] then new else []
  | b :: s, old, new =>
    if old.isPrefixOf (b :: s) then new ++ (b :: s).drop old.length
    else b :: ReplaceFirst s old new

/-- What `handler` does with a request: it answers with `http.Error`, or it
builds a collector with `collector.New(..., target, modules, apiKey, ...)`,
registers it and serves the metrics of one cycle of that collector. -/
inductive HandlerOutcome where
  | httpError (body : GoString) (code : Nat)
  | probe (c : collector) (apiKey : GoString)
  deriving DecidableEq

/-- The function `handler`. -/
def handler (cfg : Settings) (r : Request) : HandlerOutcome :=
  let query := r.query
  let target := Get query (str "target")
  if (query (str "target")).length ≠ 1 || target == [] then
    HandlerOutcome.httpError (str "'target' parameter must be specified once") 400
  else
    let modules :=
      if (query (str "modules")).length > 0 then query (str "modules")
      else [str "process_stats", str "job_queue", str "system_info"]
    let auth := r.authorization
    let apiKey :=
      if auth ≠ [] && HasPrefix auth (str "APIKEY") then
        ReplaceFirst auth (str "APIKEY ") []
      else if cfg.klipperApiKey ≠ [] then cfg.klipperApiKey
      else cfg.envApiKey
    HandlerOutcome.probe (New target modules) apiKey

/-- The upstream calls made while a request is handled: none when the
handler answers with `http.Error`, those of one `Collect` cycle otherwise. -/
def upstreamCalls (up : Upstream) : HandlerOutcome → List Endpoint
  | HandlerOutcome.httpError _ _ => []
  | HandlerOutcome.probe c _ => (Collect c up).calls

/-! ## Definitions used in the statements -/

/-- What the section of a module sends when it runs on the answers of the
upstream; a name that is not a module has no section. -/
def sectionSent (c : collector) (up : Upstream) (module : GoString) : List Metric :=
  if module = str "process_stats" then
    (processStatsSection (up.procStats c.target).result).sent
  else if module = str "network_stats" then
    (networkStatsSection (up.procStats c.target).result).sent
  else if module = str "directory_info" then (directoryInfoSection c up).sent
  else if module = str "job_queue" then (jobQueueSection c up).sent
  else if module = str "system_info" then (systemInfoSection c up).sent
  else if module = str "temperature" then (temperatureSection c up).sent
  else []

/-- The eight metrics of `process_stats` other than the memory metric, for
the decoded answer `r` and its last sample. -/
def processStatsSiblings (r : ProcessStatsResponse) (sample : MoonrakerStat) : List Metric :=
  [ gauge (str "klipper_moonraker_cpu_usage") (str "Moonraker CPU usage.")
      (GaugeValue.float sample.CpuUsage),
    gauge (str "klipper_moonraker_websocket_connections")
      (str "Moonraker Websocket connection count.")
      (GaugeValue.ofInt r.Result.WebsocketConnections),
    gauge (str "klipper_system_cpu_temp") (str "Klipper system CPU temperature in celsius.")
      (GaugeValue.float r.Result.CpuTemp),
    gauge (str "klipper_system_cpu") (str "Klipper system CPU usage.")
      (GaugeValue.float r.Result.SystemCpuUsage.Cpu),
    gauge (str "klipper_system_memory_total") (str "Klipper system total memory.")
      (GaugeValue.ofInt r.Result.SystemMemory.Total),
    gauge (str "klipper_system_memory_available") (str "Klipper system available memory.")
      (GaugeValue.ofInt r.Result.SystemMemory.Available),
    gauge (str "klipper_system_memory_used") (str "Klipper system used memory.")
      (GaugeValue.ofInt r.Result.SystemMemory.Used),
    gauge (str "klipper_system_uptime") (str "Klipper system uptime.")
      (GaugeValue.float r.Result.SystemUptime) ]

/-- An answer of the job-queue endpoint with two queued jobs. -/
def exampleJobQueue : JobQueueResponse :=
  { Result := { QueuedJobs := [{ JobId := str "0001" }, { JobId := str "0002" }] } }

/-- A stats answer with one sample and the interfaces `eth0` and `wlan0`; the
memory unit of the sample is a parameter. -/
def exampleStats (memUnits : GoString) : ProcessStatsResponse :=
  { Result :=
    { MoonrakerStats := [{ MemUnits := memUnits, Memory := 12345, CpuUsage := ⟨15, -1⟩ }]
      WebsocketConnections := 2
      CpuTemp := ⟨451, -1⟩
      SystemCpuUsage := { Cpu := ⟨25, -1⟩ }
      SystemMemory := { Total := 1000, Available := 600, Used := 400 }
      SystemUptime := ⟨1000, 0⟩
      Network :=
        [ (str "eth0", ⟨1, 2, 3, 4, 5, 6, 7, 8, ⟨10, 0⟩⟩),
          (str "wlan0", ⟨11, 12, 13, 14, 15, 16, 17, 18, ⟨20, 0⟩⟩) ] } }

/-- The temperature answer `{"extruder": {"temperatures": [10.0, 25.5]}}`. -/
def exampleTemperature : TemperatureResponse :=
  { Result :=
    [ (str "extruder",
        JSONValue.object
          [ (str "temperatures",
              JSONValue.array
                [JSONValue.number ⟨100, -1⟩, JSONValue.number ⟨255, -1⟩]) ]) ] }

/-- An upstream whose five endpoints all answer; the memory unit of the stats
sample is a parameter. -/
def exampleUpstream (memUnits : GoString) : Upstream :=
  { procStats := fun _ => Fetched.ok (exampleStats memUnits)
    directoryInfo := fun _ => Fetched.ok { Result := { DiskUsage := ⟨100, 40, 60⟩ } }
    jobQueue := fun _ => Fetched.ok exampleJobQueue
    systemInfo := fun _ => Fetched.ok { Result := { SystemInfo := { CpuInfo := ⟨4⟩ } } }
    temperature := fun _ => Fetched.ok exampleTemperature }

/-- The nine fields of an interface, in the order of the source, each with the
counter of the interface `element` that it carries. -/
def networkFieldValues (element : NetworkStat) : List (GoString × GaugeValue) :=
  [ (str "rx_bytes", GaugeValue.ofInt element.RxBytes),
    (str "tx_bytes", GaugeValue.ofInt element.TxBytes),
    (str "rx_packets", GaugeValue.ofInt element.RxPackets),
    (str "tx_packets", GaugeValue.ofInt element.TxPackets),
    (str "rx_errs", GaugeValue.ofInt element.RxErrs),
    (str "tx_errs", GaugeValue.ofInt element.TxErrs),
    (str "rx_drop", GaugeValue.ofInt element.RxDrop),
    (str "tx_drop", GaugeValue.ofInt element.TxDrop),
    (str "bandwidth", GaugeValue.float element.Bandwidth) ]

/-- The names of the nine fields of an interface. -/
def networkFields : List GoString :=
  [ str "rx_bytes", str "tx_bytes", str "rx_packets", str "tx_packets", str "rx_errs",
    str "tx_errs", str "rx_drop", str "tx_drop", str "bandwidth" ]

/-- The name `klipper_network_<interface>_<field>`. -/
def networkMetricName (key field : GoString) : GoString :=
  str "klipper_network_" ++ key ++ str "_" ++ field

/-- The names and values of the nine metrics of the interface `key`. -/
def interfaceObservations (entry : GoString × NetworkStat) : List (GoString × GaugeValue) :=
  (networkFieldValues entry.2).map (fun fv => (networkMetricName entry.1 fv.1, fv.2))

/-- The name and the value of a metric. -/
def Metric.observation (m : Metric) : GoString × GaugeValue := (m.name, m.value)

/-- The number of metrics whose name begins with `pre`. -/
def countPrefixed (pre : GoString) (ms : List Metric) : Nat :=
  ms.countP (fun m => pre.isPrefixOf m.name)

/-- No key other than `k` yields a metric name that begins with
`klipper_network_<k>_`: no other key begins with `k` followed by an
underscore, and `k` is not another key followed by `_rx` or `_tx`. -/
def KeyStandsAlone (k : GoString) (keys : List GoString) : Prop :=
  ∀ k2 ∈ keys, k2 ≠ k →
    ¬ (k ++ str "_") <+: k2 ∧ k ≠ k2 ++ str "_rx" ∧ k ≠ k2 ++ str "_tx"

/-- A stats answer whose network map has the interfaces `eth0` and
`eth0_vlan`. -/
def overlappingStats : ProcessStatsResponse :=
  { Result :=
    { MoonrakerStats := [{ MemUnits := str "kB", Memory := 12345, CpuUsage := ⟨15, -1⟩ }]
      WebsocketConnections := 2
      CpuTemp := ⟨451, -1⟩
      SystemCpuUsage := { Cpu := ⟨25, -1⟩ }
      SystemMemory := { Total := 1000, Available := 600, Used := 400 }
      SystemUptime := ⟨1000, 0⟩
      Network :=
        [ (str "eth0", ⟨1, 2, 3, 4, 5, 6, 7, 8, ⟨10, 0⟩⟩),
          (str "eth0_vlan", ⟨11, 12, 13, 14, 15, 16, 17, 18, ⟨20, 0⟩⟩) ] } }

/-- An upstream whose stats endpoint answers `overlappingStats`. -/
def overlappingUpstream : Upstream :=
  { exampleUpstream (str "kB") with procStats := fun _ => Fetched.ok overlappingStats }

/-- The names of the nine metrics of `process_stats`. -/
def processNames : List GoString :=
  [ str "klipper_moonraker_memory_kb", str "klipper_moonraker_cpu_usage",
    str "klipper_moonraker_websocket_connections", str "klipper_system_cpu_temp",
    str "klipper_system_cpu", str "klipper_system_memory_total",
    str "klipper_system_memory_available", str "klipper_system_memory_used",
    str "klipper_system_uptime" ]

/-- The names of the metrics of `directory_info`, `job_queue` and
`system_info`. -/
def laterNames : List GoString :=
  [ str "klipper_disk_usage_total", str "klipper_disk_usage_used",
    str "klipper_disk_usage_available", str "klipper_job_queue_length",
    str "klipper_system_cpu_count" ]

/-! ### Temperature observations -/

/-- The byte of the letter `s`. -/
def letterS : UInt8 := 115

/-- The last sample of an attribute: the last element of a sequence, when
there is one and it is a number. -/
def lastSample : JSONValue → Option Float64
  | JSONValue.array xs =>
    match xs.getLast? with
    | some (JSONValue.number x) => some x
    | _ => none
  | _ => none

/-- The attributes of a sensor whose value is a mapping. -/
def attributesOf : JSONValue → List (GoString × JSONValue)
  | JSONValue.object kvs => kvs
  | _ => []

/-- The name `klipper_<sanitized sensor>_<label>`. -/
def temperatureName (sensor label : GoString) : GoString :=
  str "klipper_" ++ ReplaceAll sensor space underscore ++ str "_" ++ label

/-- The label of an attribute as the specification words it: a trailing `s`
is stripped, a key that does not end in `s` is left as it is, and spaces are
replaced by underscores. -/
def labelStrippingS (a : GoString) : GoString :=
  ReplaceAll (if a.getLast? = some letterS then a.dropLast else a) space underscore

/-- The label of an attribute with its last byte removed, whatever that byte
is, and spaces replaced by underscores. -/
def labelDroppingLast (a : GoString) : GoString :=
  ReplaceAll a.dropLast space underscore

/-- The observations of a temperature answer for a given labelling of the
attributes: one per sensor and attribute, with the last sample as value; an
attribute with an empty key or without a last numeric sample contributes
nothing, and neither does a sensor whose value is not a mapping. -/
def temperatureObservations (label : GoString → GoString)
    (resp : List (GoString × JSONValue)) : List (GoString × GaugeValue) :=
  resp.flatMap fun sensor =>
    (attributesOf sensor.2).filterMap fun attr =>
      if attr.1 = [] then none
      else (lastSample attr.2).map fun x =>
        (temperatureName sensor.1 (label attr.1), GaugeValue.float x)

/-- An attribute with a non-empty key whose value is a non-empty sequence
ending in a number. -/
def wellFormedAttribute (attr : GoString × JSONValue) : Bool :=
  attr.1 ≠ [] && (lastSample attr.2).isSome

/-- A sensor whose value is a mapping of well-formed attributes. -/
def wellFormedSensor (sensor : GoString × JSONValue) : Bool :=
  match sensor.2 with
  | JSONValue.object attrs => attrs.all wellFormedAttribute
  | _ => false

/-- A well-formed temperature answer. -/
def wellFormedTemperature (resp : List (GoString × JSONValue)) : Bool :=
  resp.all wellFormedSensor

/-- The number of attributes of all sensors of a temperature answer. -/
def attributeCount (resp : List (GoString × JSONValue)) : Nat :=
  (resp.map fun sensor => (attributesOf sensor.2).length).sum

/-- The module list without `temperature`. -/
def withoutTemperature (c : collector) : collector :=
  { c with modules := c.modules.filter (fun m => m ≠ str "temperature") }

/-- The temperature answer `{"fan": {"speed": [0.5]}}`. -/
def fanSpeedTemperature : TemperatureResponse :=
  { Result :=
    [ (str "fan",
        JSONValue.object [(str "speed", JSONValue.array [JSONValue.number ⟨5, -1⟩])]) ] }

/-- An upstream whose temperature endpoint answers with the given response. -/
def temperatureUpstream (resp : TemperatureResponse) : Upstream :=
  { exampleUpstream (str "kB") with temperature := fun _ => Fetched.ok resp }

/-- An upstream whose stats call returns an error (and a nil result) while the
four other endpoints answer. -/
def statsDownUpstream : Upstream :=
  { exampleUpstream (str "kB") with procStats := fun _ => ⟨none, true⟩ }

/-- An upstream whose job-queue call returns the given pair. -/
def jobQueueUpstream (fetched : Fetched JobQueueResponse) : Upstream :=
  { exampleUpstream (str "kB") with jobQueue := fun _ => fetched }

/-- A temperature answer whose first sensor has an empty sample sequence and
whose second sensor is well formed:
`{"chamber": {"temperatures": []}, "extruder": {"temperatures": [25.5]}}`. -/
def emptySamplesTemperature : TemperatureResponse :=
  { Result :=
    [ (str "chamber", JSONValue.object [(str "temperatures", JSONValue.array [])]),
      (str "extruder",
        JSONValue.object [(str "temperatures", JSONValue.array [JSONValue.number ⟨255, -1⟩])]) ] }

/-- A temperature answer with one sensor whose value is the given JSON value. -/
def oneSensorTemperature (v : JSONValue) : TemperatureResponse :=
  { Result := [(str "extruder", v)] }

/-- A temperature answer with the sensors `heater bed` and `heater_bed`:
`{"heater bed": {"temperatures": [60.0]}, "heater_bed": {"temperatures": [61.0]}}`. -/
def collidingTemperature : TemperatureResponse :=
  { Result :=
    [ (str "heater bed",
        JSONValue.object [(str "temperatures", JSONValue.array [JSONValue.number ⟨600, -1⟩])]),
      (str "heater_bed",
        JSONValue.object [(str "temperatures", JSONValue.array [JSONValue.number ⟨610, -1⟩])]) ] }

/-- A temperature answer with two sensors of two attributes each:
`{"extruder": {"temperatures": [25.5], "targets": [0.0]},
  "heater_bed": {"temperatures": [60.0], "powers": [0.5]}}`. -/
def twoSensorTemperature : TemperatureResponse :=
  { Result :=
    [ (str "extruder",
        JSONValue.object
          [ (str "temperatures", JSONValue.array [JSONValue.number ⟨255, -1⟩]),
            (str "targets", JSONValue.array [JSONValue.number ⟨0, 0⟩]) ]),
      (str "heater_bed",
        JSONValue.object
          [ (str "temperatures", JSONValue.array [JSONValue.number ⟨600, -1⟩]),
            (str "powers", JSONValue.array [JSONValue.number ⟨5, -1⟩]) ]) ] }

/-- The temperature answer `{"moonraker memory": {"kbs": [1.0]}}`. -/
def memoryNamedTemperature : TemperatureResponse :=
  { Result :=
    [ (str "moonraker memory",
        JSONValue.object [(str "kbs", JSONValue.array [JSONValue.number ⟨10, -1⟩])]) ] }

/-- An upstream whose stats sample has the memory unit `MB` and whose
temperature endpoint answers `memoryNamedTemperature`. -/
def memoryNamedUpstream : Upstream :=
  { exampleUpstream (str "MB") with temperature := fun _ => Fetched.ok memoryNamedTemperature }

/-! ### The outcome of the handler -/

/-- The collector `handler` builds, when it builds one. -/
def HandlerOutcome.built : HandlerOutcome → Option collector
  | HandlerOutcome.httpError _ _ => none
  | HandlerOutcome.probe c _ => some c

/-- The credential `handler` passes to `collector.New`, when it builds a
collector. -/
def HandlerOutcome.credential : HandlerOutcome → Option GoString
  | HandlerOutcome.httpError _ _ => none
  | HandlerOutcome.probe _ apiKey => some apiKey

/-- The credential as the specification words it: the token of a header
`APIKEY <token>`; otherwise the command-line key when it is not empty;
otherwise the environment variable when it is not empty; otherwise the empty
string. -/
def specCredential (cfg : Settings) (auth : GoString) : GoString :=
  if (str "APIKEY ").isPrefixOf auth then auth.drop (str "APIKEY ").length
  else if cfg.klipperApiKey ≠ [] then cfg.klipperApiKey
  else if cfg.envApiKey ≠ [] then cfg.envApiKey
  else []

/-- A `/probe` request with the given `target` values, `modules` values and
`Authorization` header. -/
def probeRequest (targets modules : List GoString) (auth : GoString) : Request :=
  { query := fun key =>
      if key = str "target" then targets
      else if key = str "modules" then modules
      else []
    authorization := auth }

/-- Settings with the command-line key `cli-key` and the environment variable
`env-key`. -/
def exampleSettings : Settings :=
  { klipperApiKey := str "cli-key", envApiKey := str "env-key" }

/-- A stats answer whose sample sequence is empty. -/
def noSampleStats : ProcessStatsResponse :=
  { Result := { (exampleStats (str "kB")).Result with MoonrakerStats := [] } }

/-- An upstream whose stats endpoint answers `noSampleStats`. -/
def noSampleUpstream : Upstream :=
  { exampleUpstream (str "kB") with procStats := fun _ => Fetched.ok noSampleStats }

/-- A stats answer whose network map has the interfaces `eth0` and `eth0_rx`. -/
def extendingStats : ProcessStatsResponse :=
  { Result :=
    { (exampleStats (str "kB")).Result with
      Network :=
        [ (str "eth0", ⟨1, 2, 3, 4, 5, 6, 7, 8, ⟨10, 0⟩⟩),
          (str "eth0_rx", ⟨11, 12, 13, 14, 15, 16, 17, 18, ⟨20, 0⟩⟩) ] } }

/-! ### What a block sends when every name is valid -/

/-- The nine metrics of one interface, in the order of the source. -/
def interfaceMetrics (entry : GoString × NetworkStat) : List Metric :=
  [ gauge (str "klipper_network_" ++ entry.1 ++ str "_rx_bytes")
      (str "Klipper network recieved bytes.") (GaugeValue.ofInt entry.2.RxBytes),
    gauge (str "klipper_network_" ++ entry.1 ++ str "_tx_bytes")
      (str "Klipper network transmitted bytes.") (GaugeValue.ofInt entry.2.TxBytes),
    gauge (str "klipper_network_" ++ entry.1 ++ str "_rx_packets")
      (str "Klipper network recieved packets.") (GaugeValue.ofInt entry.2.RxPackets),
    gauge (str "klipper_network_" ++ entry.1 ++ str "_tx_packets")
      (str "Klipper network transmitted packets.") (GaugeValue.ofInt entry.2.TxPackets),
    gauge (str "klipper_network_" ++ entry.1 ++ str "_rx_errs")
      (str "Klipper network recieved errored packets.") (GaugeValue.ofInt entry.2.RxErrs),
    gauge (str "klipper_network_" ++ entry.1 ++ str "_tx_errs")
      (str "Klipper network transmitted errored packets.") (GaugeValue.ofInt entry.2.TxErrs),
    gauge (str "klipper_network_" ++ entry.1 ++ str "_rx_drop")
      (str "Klipper network recieved dropped packets.") (GaugeValue.ofInt entry.2.RxDrop),
    gauge (str "klipper_network_" ++ entry.1 ++ str "_tx_drop")
      (str "Klipper network transmitted dropped packtes.") (GaugeValue.ofInt entry.2.TxDrop),
    gauge (str "klipper_network_" ++ entry.1 ++ str "_bandwidth")
      (str "Klipper network bandwidth.") (GaugeValue.float entry.2.Bandwidth) ]

/-- The metric of the attribute `attr` of the sensor `k` with last sample `x`. -/
def attributeMetric (k : GoString) (attr : GoString × JSONValue) (x : Float64) : Metric :=
  gauge (temperatureName k (labelDroppingLast attr.1))
    (str "Klipper " ++ k ++ str " " ++ labelDroppingLast attr.1) (GaugeValue.float x)

/-- The metrics of a sensor: one for each attribute with a non-empty key and a
last numeric sample. -/
def sensorMetrics (sensor : GoString × JSONValue) : List Metric :=
  (attributesOf sensor.2).filterMap fun attr =>
    if attr.1 = [] then none
    else (lastSample attr.2).map (attributeMetric sensor.1 attr)

/-- The metrics of a temperature answer, sensor by sensor. -/
def temperatureMetrics (resp : List (GoString × JSONValue)) : List Metric :=
  resp.flatMap sensorMetrics

/-- Every name of the list is a valid metric name. -/
def AllValid (ms : List Metric) : Prop :=
  ∀ m ∈ ms, IsValidMetricName m.name = true

/-- The block `x` sends the metrics `ms` one after the other and stops, by a
panic, at the first one whose name is not valid: it makes no upstream call,
what it sends is an initial part of `ms`, it sends all of `ms` when it
completes, and it completes when every name is valid. -/
def SendsUpTo (x : GoM Unit) (ms : List Metric) : Prop :=
  x.calls = [] ∧ x.sent <+: ms ∧
    (x.completion = Completion.normal () → x.sent = ms) ∧
    (AllValid ms → x.completion = Completion.normal ())

/-- Every byte of the key may occur in a metric name. -/
def validKey (k : GoString) : Bool := k.all validNameByte

/-- Every byte of the key may occur in a metric name or is a space, which the
collector replaces by an underscore. -/
def sanitizableKey (k : GoString) : Bool := k.all fun b => validNameByte b || b == space

/-- A stats answer whose network map has the interface `br-lan`. -/
def dashKeyStats : ProcessStatsResponse :=
  { Result :=
    { (exampleStats (str "kB")).Result with
      Network := [(str "br-lan", ⟨1, 2, 3, 4, 5, 6, 7, 8, ⟨10, 0⟩⟩)] } }

/-- An upstream whose stats endpoint answers `dashKeyStats`. -/
def dashKeyUpstream : Upstream :=
  { exampleUpstream (str "kB") with procStats := fun _ => Fetched.ok dashKeyStats }

/-- The temperature answer `{"bed-1": {"temperatures": [60.0]}}`. -/
def dashSensorTemperature : TemperatureResponse :=
  { Result :=
    [ (str "bed-1",
        JSONValue.object
          [(str "temperatures", JSONValue.array [JSONValue.number ⟨600, -1⟩])]) ] }

/-! ## Sequencing -/

theorem bind_eq {α β : Type} (x : GoM α) (f : α → GoM β) : x >>= f = GoM.bind x f := rfl

theorem pure_eq {α : Type} (a : α) :
    (pure a : GoM α) = { completion := Completion.normal a, sent := [], calls := [] } := rfl

theorem mem_sent_bind {α β : Type} {x : GoM α} {f : α → GoM β} {m : Metric}
    (h : m ∈ (GoM.bind x f).sent) :
    m ∈ x.sent ∨ ∃ a, x.completion = Completion.normal a ∧ m ∈ (f a).sent := by
  unfold GoM.bind at h
  split at h
  · rcases List.mem_append.mp h with h | h
    · exact Or.inl h
    · exact Or.inr ⟨_, by assumption, h⟩
  · exact Or.inl h
  · exact Or.inl h

theorem mem_sent_ifThen {b : Bool} {x : GoM Unit} {m : Metric}
    (h : m ∈ (ifThen b x).sent) : b = true ∧ m ∈ x.sent := by
  cases b
  · simp [ifThen, pure_eq] at h
  · exact ⟨rfl, by simpa [ifThen] using h⟩

theorem contains_iff {l : List GoString} {v : GoString} : Contains l v = true ↔ v ∈ l := by
  simp [Contains]

theorem fetchMoonrakerProcessStats_eq (up : Upstream) (t : GoString) :
    fetchMoonrakerProcessStats up t =
      { completion := Completion.normal (up.procStats t), sent := [],
        calls := [Endpoint.procStats] } := rfl

theorem sent_bind_left {α β : Type} (x : GoM α) (f : α → GoM β) :
    x.sent <+: (GoM.bind x f).sent := by
  unfold GoM.bind
  split
  · exact List.prefix_append _ _
  · exact List.prefix_refl _
  · exact List.prefix_refl _

theorem bind_of_normal {α β : Type} {x : GoM α} {a : α} (f : α → GoM β)
    (h : x.completion = Completion.normal a) :
    GoM.bind x f =
      { completion := (f a).completion
        sent := x.sent ++ (f a).sent
        calls := x.calls ++ (f a).calls } := by
  unfold GoM.bind
  rw [h]

theorem index_last {α : Type} (xs : List α) (h : xs ≠ []) :
    index xs ((xs.length : Int) - 1) = pure (xs.getLast h) := by
  have hpos : 0 < xs.length := List.length_pos.mpr h
  have h1 : ¬ ((xs.length : Int) - 1 < 0) := by omega
  have h2 : ((xs.length : Int) - 1).toNat = xs.length - 1 := by omega
  unfold index
  rw [if_neg h1, h2]
  have h3 : xs.get? (xs.length - 1) = some (xs.getLast h) := by
    rw [List.getLast_eq_getElem]
    simp [List.getElem?_eq_getElem]
  rw [h3]

theorem pure_bind_eq {α β : Type} (a : α) (f : α → GoM β) :
    GoM.bind (pure a) f = f a := by
  simp [GoM.bind, pure_eq]

theorem send_bind_eq {β : Type} (m : Metric) (f : Unit → GoM β) :
    GoM.bind (send m) f =
      { completion := (f ()).completion, sent := m :: (f ()).sent, calls := (f ()).calls } := by
  simp [GoM.bind, send]

theorem sent_bind_decomp {α β : Type} (x : GoM α) (f : α → GoM β) :
    ∃ B : List Metric, (GoM.bind x f).sent = x.sent ++ B ∧
      ∀ m ∈ B, ∃ a, x.completion = Completion.normal a ∧ m ∈ (f a).sent := by
  unfold GoM.bind
  split
  · exact ⟨_, rfl, fun m hm => ⟨_, by assumption, hm⟩⟩
  · exact ⟨[], by simp, by simp⟩
  · exact ⟨[], by simp, by simp⟩

theorem index_nil {α : Type} (i : Int) : index ([] : List α) i = goPanic := by
  unfold index
  split <;> rfl

theorem goPanic_bind {α β : Type} (f : α → GoM β) :
    GoM.bind (goPanic : GoM α) f = goPanic := rfl

theorem panicked_bind {α β : Type} (s : List Metric) (cs : List Endpoint) (f : α → GoM β) :
    GoM.bind { completion := Completion.panicked, sent := s, calls := cs } f =
      { completion := Completion.panicked, sent := s, calls := cs } := rfl

theorem bind_assoc_eq {α β γ : Type} (x : GoM α) (f : α → GoM β) (g : β → GoM γ) :
    GoM.bind (GoM.bind x f) g = GoM.bind x (fun a => GoM.bind (f a) g) := by
  cases hx : x.completion with
  | normal a =>
    cases hf : (f a).completion with
    | normal b => simp [GoM.bind, hx, hf]
    | returned => simp [GoM.bind, hx, hf]
    | panicked => simp [GoM.bind, hx, hf]
  | returned => simp [GoM.bind, hx]
  | panicked => simp [GoM.bind, hx]

theorem bind_pure_unit (x : GoM Unit) : GoM.bind x (fun _ => pure ()) = x := by
  cases x with
  | mk completion sent calls =>
    cases completion <;> simp [GoM.bind, pure_eq]

/-! ## Building and sending a metric -/

theorem MustNewConstMetric_of_valid {n : GoString} (hl : GoString) (v : GaugeValue)
    (h : IsValidMetricName n = true) :
    MustNewConstMetric n hl v = pure (gauge n hl v) := by
  simp [MustNewConstMetric, h]

theorem MustNewConstMetric_of_invalid {n : GoString} (hl : GoString) (v : GaugeValue)
    (h : IsValidMetricName n = false) :
    MustNewConstMetric n hl v = goPanic := by
  simp [MustNewConstMetric, h]

theorem allValid_cons {m : Metric} {ms : List Metric} :
    AllValid (m :: ms) ↔ IsValidMetricName m.name = true ∧ AllValid ms := by
  simp [AllValid]

theorem allValid_append {xs ys : List Metric} :
    AllValid (xs ++ ys) ↔ AllValid xs ∧ AllValid ys := by
  simp only [AllValid, List.mem_append]
  constructor
  · intro h
    exact ⟨fun m hm => h m (Or.inl hm), fun m hm => h m (Or.inr hm)⟩
  · rintro ⟨h1, h2⟩ m (hm | hm)
    · exact h1 m hm
    · exact h2 m hm

theorem sendsUpTo_nil : SendsUpTo (pure ()) [] :=
  ⟨rfl, List.prefix_refl _, fun _ => rfl, fun _ => rfl⟩

theorem sendsUpTo_seq {x y : GoM Unit} {g1 g2 : List Metric}
    (hx : SendsUpTo x g1) (hy : SendsUpTo y g2) :
    SendsUpTo (GoM.bind x (fun _ => y)) (g1 ++ g2) := by
  obtain ⟨hx1, hx2, hx3, hx4⟩ := hx
  obtain ⟨hy1, hy2, hy3, hy4⟩ := hy
  cases hc : x.completion with
  | normal a =>
    have hsx := hx3 hc
    rw [bind_of_normal _ hc]
    refine ⟨by simp [hx1, hy1], ?_, ?_, ?_⟩
    · simp only [hsx]
      exact (List.prefix_append_right_inj g1).mpr hy2
    · intro hcy
      simp only [hsx, hy3 hcy]
    · intro hv
      exact hy4 (allValid_append.mp hv).2
  | returned =>
    have e : GoM.bind x (fun _ => y) =
        { completion := Completion.returned, sent := x.sent, calls := x.calls } := by
      unfold GoM.bind; rw [hc]
    rw [e]
    refine ⟨hx1, hx2.trans (List.prefix_append _ _), fun h => by simp at h, fun hv => ?_⟩
    have := hx4 (allValid_append.mp hv).1
    rw [hc] at this
    exact absurd this (by simp)
  | panicked =>
    have e : GoM.bind x (fun _ => y) =
        { completion := Completion.panicked, sent := x.sent, calls := x.calls } := by
      unfold GoM.bind; rw [hc]
    rw [e]
    refine ⟨hx1, hx2.trans (List.prefix_append _ _), fun h => by simp at h, fun hv => ?_⟩
    have := hx4 (allValid_append.mp hv).1
    rw [hc] at this
    exact absurd this (by simp)

theorem sendsUpTo_metric (n hl : GoString) (v : GaugeValue) :
    SendsUpTo (GoM.bind (MustNewConstMetric n hl v) (fun m => send m)) [gauge n hl v] := by
  cases hv : IsValidMetricName n with
  | true =>
    rw [MustNewConstMetric_of_valid hl v hv, pure_bind_eq]
    exact ⟨rfl, List.prefix_refl _, fun _ => rfl, fun _ => rfl⟩
  | false =>
    rw [MustNewConstMetric_of_invalid hl v hv, goPanic_bind]
    refine ⟨rfl, List.nil_prefix, fun h => by simp [goPanic] at h, fun h => ?_⟩
    have := h (gauge n hl v) (List.mem_singleton.mpr rfl)
    simp [gauge, hv] at this

theorem sendsUpTo_metric_cons (n hl : GoString) (v : GaugeValue) {rest : GoM Unit}
    {g : List Metric} (h : SendsUpTo rest g) :
    SendsUpTo (GoM.bind (MustNewConstMetric n hl v) (fun m =>
      GoM.bind (send m) (fun _ => rest))) (gauge n hl v :: g) := by
  have e : GoM.bind (MustNewConstMetric n hl v) (fun m => GoM.bind (send m) (fun _ => rest)) =
      GoM.bind (GoM.bind (MustNewConstMetric n hl v) (fun m => send m)) (fun _ => rest) := by
    rw [bind_assoc_eq]
  rw [e]
  exact sendsUpTo_seq (sendsUpTo_metric n hl v) h

theorem sendsUpTo_forRange {α : Type} (body : α → GoM Unit) (g : α → List Metric)
    (xs : List α) (h : ∀ x ∈ xs, SendsUpTo (body x) (g x)) :
    SendsUpTo (forRange xs body) (xs.flatMap g) := by
  induction xs with
  | nil => exact sendsUpTo_nil
  | cons x xs ih =>
    simp only [forRange, bind_eq, List.flatMap_cons]
    exact sendsUpTo_seq (h x (List.mem_cons_self _ _))
      (ih (fun y hy => h y (List.mem_cons_of_mem _ hy)))

theorem sendsUpTo_of_allValid {x : GoM Unit} {ms : List Metric} (h : SendsUpTo x ms)
    (hv : AllValid ms) :
    x = { completion := Completion.normal (), sent := ms, calls := [] } := by
  obtain ⟨h1, -, h3, h4⟩ := h
  have hc := h4 hv
  cases x with
  | mk completion sent calls =>
    simp only at h1 hc h3
    rw [h1, hc, h3 hc]

/-! ## Module selection and the process section -/

theorem collect_jobQueue_only (c : collector) (up : Upstream) (r : JobQueueResponse)
    (hm : c.modules = [str "job_queue"]) (h : up.jobQueue c.target = Fetched.ok r) :
    Collect c up =
      { completion := Completion.normal ()
        sent := [gauge (str "klipper_job_queue_length") (str "Klipper job queue length.")
          (GaugeValue.ofInt r.Result.QueuedJobs.length)]
        calls := [Endpoint.jobQueue] } := by
  have h1 : Contains [str "job_queue"] (str "process_stats") = false := by decide
  have h2 : Contains [str "job_queue"] (str "network_stats") = false := by decide
  have h3 : Contains [str "job_queue"] (str "directory_info") = false := by decide
  have h4 : Contains [str "job_queue"] (str "job_queue") = true := by decide
  have h5 : Contains [str "job_queue"] (str "system_info") = false := by decide
  have h6 : Contains [str "job_queue"] (str "temperature") = false := by decide
  have hv : IsValidMetricName (str "klipper_job_queue_length") = true := by decide
  simp [Collect, statsBranch, hm, h1, h2, h3, h4, h5, h6, jobQueueSection,
    fetchMoonrakerJobQueue, h, Fetched.ok, bind_eq, pure_eq, GoM.bind, deref, send, upstreamCall,
    ifThen, MustNewConstMetric, hv]

theorem mem_sent_collect {c : collector} {up : Upstream} {m : Metric}
    (hm : m ∈ (Collect c up).sent) :
    ∃ module ∈ c.modules, m ∈ sectionSent c up module := by
  simp only [Collect, statsBranch, bind_eq] at hm
  rcases mem_sent_bind hm with h | ⟨_, -, h⟩
  · obtain ⟨-, h⟩ := mem_sent_ifThen h
    rcases mem_sent_bind h with h | ⟨fetched, hf, h⟩
    · simp [fetchMoonrakerProcessStats_eq] at h
    · simp only [fetchMoonrakerProcessStats_eq, Completion.normal.injEq] at hf
      subst hf
      rcases mem_sent_bind h with h | ⟨_, -, h⟩
      · obtain ⟨-, h⟩ := mem_sent_ifThen h
        simp [goReturn] at h
      · rcases mem_sent_bind h with h | ⟨_, -, h⟩
        · obtain ⟨hb, h⟩ := mem_sent_ifThen h
          exact ⟨_, contains_iff.mp hb, by simpa [sectionSent] using h⟩
        · obtain ⟨hb, h⟩ := mem_sent_ifThen h
          refine ⟨_, contains_iff.mp hb, ?_⟩
          rw [sectionSent, if_neg (by decide), if_pos rfl]
          exact h
  · rcases mem_sent_bind h with h | ⟨_, -, h⟩
    · obtain ⟨hb, h⟩ := mem_sent_ifThen h
      refine ⟨_, contains_iff.mp hb, ?_⟩
      rw [sectionSent, if_neg (by decide), if_neg (by decide), if_pos rfl]
      exact h
    · rcases mem_sent_bind h with h | ⟨_, -, h⟩
      · obtain ⟨hb, h⟩ := mem_sent_ifThen h
        refine ⟨_, contains_iff.mp hb, ?_⟩
        rw [sectionSent, if_neg (by decide), if_neg (by decide), if_neg (by decide), if_pos rfl]
        exact h
      · rcases mem_sent_bind h with h | ⟨_, -, h⟩
        · obtain ⟨hb, h⟩ := mem_sent_ifThen h
          refine ⟨_, contains_iff.mp hb, ?_⟩
          rw [sectionSent, if_neg (by decide), if_neg (by decide), if_neg (by decide),
            if_neg (by decide), if_pos rfl]
          exact h
        · obtain ⟨hb, h⟩ := mem_sent_ifThen h
          refine ⟨_, contains_iff.mp hb, ?_⟩
          rw [sectionSent, if_neg (by decide), if_neg (by decide), if_neg (by decide),
            if_neg (by decide), if_neg (by decide), if_pos rfl]
          exact h

theorem processNames_valid : ∀ n ∈ processNames, IsValidMetricName n = true := by
  decide

theorem laterNames_valid : ∀ n ∈ laterNames, IsValidMetricName n = true := by
  decide

theorem processStatsSection_sent (r : ProcessStatsResponse) (hne : r.Result.MoonrakerStats ≠ []) :
    processStatsSection (some r) =
      { completion := Completion.normal ()
        sent := (if (r.Result.MoonrakerStats.getLast hne).MemUnits = str "kB" then
            [gauge (str "klipper_moonraker_memory_kb") (str "Moonraker memory usage in Kb.")
              (GaugeValue.ofInt (r.Result.MoonrakerStats.getLast hne).Memory)]
          else []) ++ processStatsSiblings r (r.Result.MoonrakerStats.getLast hne)
        calls := [] } := by
  unfold processStatsSection
  simp only [deref, bind_eq, pure_bind_eq, index_last _ hne]
  have hv := processNames_valid
  simp only [processNames, List.forall_mem_cons, List.not_mem_nil, false_implies,
    implies_true, and_true] at hv
  obtain ⟨v1, v2, v3, v4, v5, v6, v7, v8, v9⟩ := hv
  by_cases hu : (r.Result.MoonrakerStats.getLast hne).MemUnits = str "kB"
  · simp [hu, pure_eq, GoM.bind, send, processStatsSiblings, MustNewConstMetric,
      v1, v2, v3, v4, v5, v6, v7, v8, v9]
  · simp [hu, pure_eq, GoM.bind, send, processStatsSiblings, MustNewConstMetric,
      v1, v2, v3, v4, v5, v6, v7, v8, v9]

theorem processStats_prefix_collect (c : collector) (up : Upstream) (r : ProcessStatsResponse)
    (hsel : str "process_stats" ∈ c.modules) (hfetch : up.procStats c.target = Fetched.ok r) :
    (processStatsSection (some r)).sent <+: (Collect c up).sent := by
  have hps : Contains c.modules (str "process_stats") = true := contains_iff.mpr hsel
  simp only [Collect, statsBranch, bind_eq]
  refine List.IsPrefix.trans ?_ (sent_bind_left _ _)
  simp only [hps, Bool.true_or, ifThen, if_true, fetchMoonrakerProcessStats_eq, hfetch, Fetched.ok]
  rw [bind_of_normal _ rfl]
  simp only [List.nil_append, Bool.false_eq_true, if_false, pure_eq]
  rw [bind_of_normal _ rfl]
  simp only [List.nil_append]
  exact sent_bind_left _ _


/-! ## The network section -/

theorem isValidMetricName_append {a b : GoString} (ha : IsValidMetricName a = true)
    (hb : b.all validNameByte = true) : IsValidMetricName (a ++ b) = true := by
  cases a with
  | nil => simp [IsValidMetricName] at ha
  | cons x xs =>
    simp only [IsValidMetricName, Bool.and_eq_true] at ha
    simp only [List.cons_append, IsValidMetricName, List.all_append, Bool.and_eq_true]
    exact ⟨ha.1, ha.2, hb⟩

theorem isValidMetricName_append_iff {a b : GoString} (ha : IsValidMetricName a = true) :
    IsValidMetricName (a ++ b) = true ↔ b.all validNameByte = true := by
  refine ⟨fun h => ?_, isValidMetricName_append ha⟩
  cases a with
  | nil => simp [IsValidMetricName] at ha
  | cons x xs =>
    simp only [List.cons_append, IsValidMetricName, List.all_append, Bool.and_eq_true] at h
    exact h.2.2

theorem networkFields_valid : ∀ f ∈ networkFields, (str "_" ++ f).all validNameByte = true := by
  decide

theorem networkMetricName_valid {k f : GoString} (hf : f ∈ networkFields)
    (hk : validKey k = true) : IsValidMetricName (networkMetricName k f) = true := by
  simp only [networkMetricName, List.append_assoc]
  refine isValidMetricName_append (by decide) ?_
  rw [List.all_append, Bool.and_eq_true]
  exact ⟨hk, networkFields_valid f hf⟩

theorem networkInterfaceBody_sendsUpTo (entry : GoString × NetworkStat) :
    SendsUpTo (networkInterfaceBody entry) (interfaceMetrics entry) := by
  simp only [networkInterfaceBody, bind_eq, interfaceMetrics]
  repeat (first | exact sendsUpTo_metric _ _ _ | apply sendsUpTo_metric_cons)

theorem interfaceMetrics_observations (entry : GoString × NetworkStat) :
    (interfaceMetrics entry).map Metric.observation = interfaceObservations entry := by
  simp only [interfaceMetrics, interfaceObservations, networkFieldValues, networkMetricName,
    Metric.observation, gauge, List.map_cons, List.map_nil, List.append_assoc]
  rfl

theorem networkFieldValues_fields (e : NetworkStat) :
    (networkFieldValues e).map Prod.fst = networkFields := rfl

theorem interfaceMetrics_names (entry : GoString × NetworkStat) :
    (interfaceMetrics entry).map Metric.name =
      networkFields.map (networkMetricName entry.1) := by
  have h := congrArg (List.map Prod.fst) (interfaceMetrics_observations entry)
  simp only [List.map_map, interfaceObservations] at h
  rw [← networkFieldValues_fields entry.2, List.map_map]
  exact h

theorem interfaceMetrics_valid (entry : GoString × NetworkStat)
    (hk : validKey entry.1 = true) : AllValid (interfaceMetrics entry) := by
  intro m hm
  have hn : m.name ∈ (interfaceMetrics entry).map Metric.name := List.mem_map_of_mem _ hm
  rw [interfaceMetrics_names] at hn
  obtain ⟨f, hf, e⟩ := List.mem_map.mp hn
  rw [← e]
  exact networkMetricName_valid hf hk

theorem networkStatsSection_sendsUpTo (r : ProcessStatsResponse) :
    SendsUpTo (networkStatsSection (some r)) (r.Result.Network.flatMap interfaceMetrics) := by
  simp only [networkStatsSection, deref, bind_eq, pure_bind_eq]
  exact sendsUpTo_forRange _ _ _ (fun entry _ => networkInterfaceBody_sendsUpTo entry)

theorem allValid_flatMap {α : Type} (xs : List α) (g : α → List Metric)
    (h : ∀ x ∈ xs, AllValid (g x)) : AllValid (xs.flatMap g) := by
  intro m hm
  obtain ⟨x, hx, hmx⟩ := List.mem_flatMap.mp hm
  exact h x hx m hmx

/-- The network section when every interface key is made of bytes that may
occur in a metric name. -/
theorem networkStatsSection_eq (r : ProcessStatsResponse)
    (hvalid : ∀ k ∈ r.Result.Network.map Prod.fst, validKey k = true) :
    networkStatsSection (some r) =
      { completion := Completion.normal ()
        sent := r.Result.Network.flatMap interfaceMetrics
        calls := [] } := by
  refine sendsUpTo_of_allValid (networkStatsSection_sendsUpTo r) ?_
  exact allValid_flatMap _ _ (fun entry he =>
    interfaceMetrics_valid entry (hvalid _ (List.mem_map_of_mem _ he)))

theorem underscore_inits :
    ∀ f ∈ networkFields, ∀ t ∈ (str "_" ++ f).inits, t.getLast? = some 95 →
      t.dropLast = [] ∨ t.dropLast = str "_rx" ∨ t.dropLast = str "_tx" := by
  decide

theorem prefix_field_cases {k k2 f : GoString} (hf : f ∈ networkFields)
    (h : (k ++ str "_") <+: (k2 ++ str "_" ++ f)) :
    k = k2 ∨ (k ++ str "_") <+: k2 ∨ k = k2 ++ str "_rx" ∨ k = k2 ++ str "_tx" := by
  have hk2 : k2 <+: (k2 ++ str "_" ++ f) := by
    rw [List.append_assoc]; exact List.prefix_append _ _
  rcases List.prefix_or_prefix_of_prefix h hk2 with h1 | h1
  · exact Or.inr (Or.inl h1)
  · obtain ⟨t, ht⟩ := h1
    rw [← ht, List.append_assoc, List.prefix_append_right_inj] at h
    rcases List.eq_nil_or_concat t with rfl | ⟨t0, x, rfl⟩
    · right; left
      rw [← ht]; simp
    · have hu : str "_" = [95] := rfl
      rw [hu, List.concat_eq_append, ← List.append_assoc] at ht
      have h2 := List.append_inj' ht rfl
      obtain ⟨h3, h4⟩ := h2
      have hx : x = 95 := by simpa using h4
      subst hx
      have hmem : t0.concat 95 ∈ (str "_" ++ f).inits := (List.mem_inits _ _).mpr h
      have := underscore_inits f hf _ hmem (by simp)
      simp only [List.concat_eq_append, List.dropLast_concat] at this
      rcases this with h5 | h5 | h5
      · left; rw [← h3, h5]; simp
      · right; right; left; rw [← h3, h5]
      · right; right; right; rw [← h3, h5]

theorem countPrefixed_append (pre : GoString) (xs ys : List Metric) :
    countPrefixed pre (xs ++ ys) = countPrefixed pre xs + countPrefixed pre ys := by
  simp [countPrefixed]

theorem countPrefixed_eq_names (pre : GoString) (ms : List Metric) :
    countPrefixed pre ms = (ms.map Metric.name).countP (fun n => pre.isPrefixOf n) := by
  simp [countPrefixed, List.countP_map, Function.comp_def]

theorem network_prefix_iff (k k2 f : GoString) :
    (str "klipper_network_" ++ k ++ str "_") <+: networkMetricName k2 f ↔
      (k ++ str "_") <+: (k2 ++ str "_" ++ f) := by
  simp only [networkMetricName, List.append_assoc, List.prefix_append_right_inj]

theorem countPrefixed_own (k : GoString) (e : NetworkStat) :
    countPrefixed (str "klipper_network_" ++ k ++ str "_") (interfaceMetrics (k, e))
      = 9 := by
  rw [countPrefixed_eq_names, interfaceMetrics_names, List.countP_eq_length.mpr]
  · rfl
  · intro n hn
    obtain ⟨f, -, rfl⟩ := List.mem_map.mp hn
    simp only [List.isPrefixOf_iff_prefix, network_prefix_iff]
    exact List.prefix_append _ _

theorem countPrefixed_other {k k2 : GoString} (e : NetworkStat) (hne : k2 ≠ k)
    (h : ¬ (k ++ str "_") <+: k2 ∧ k ≠ k2 ++ str "_rx" ∧ k ≠ k2 ++ str "_tx") :
    countPrefixed (str "klipper_network_" ++ k ++ str "_") (interfaceMetrics (k2, e))
      = 0 := by
  rw [countPrefixed_eq_names, interfaceMetrics_names, List.countP_eq_zero]
  intro n hn
  obtain ⟨f, hf, rfl⟩ := List.mem_map.mp hn
  simp only [List.isPrefixOf_iff_prefix, network_prefix_iff]
  intro hp
  rcases prefix_field_cases hf hp with h1 | h1 | h1 | h1
  · exact hne h1.symm
  · exact h.1 h1
  · exact h.2.1 h1
  · exact h.2.2 h1

theorem countPrefixed_network (k : GoString) (net : List (GoString × NetworkStat))
    (hnd : (net.map Prod.fst).Nodup) (hk : k ∈ net.map Prod.fst)
    (halone : KeyStandsAlone k (net.map Prod.fst)) :
    countPrefixed (str "klipper_network_" ++ k ++ str "_")
      (net.flatMap interfaceMetrics) = 9 := by
  have key : ∀ l : List (GoString × NetworkStat), (l.map Prod.fst).Nodup →
      KeyStandsAlone k (l.map Prod.fst) →
      countPrefixed (str "klipper_network_" ++ k ++ str "_")
        (l.flatMap interfaceMetrics) =
        if k ∈ l.map Prod.fst then 9 else 0 := by
    intro l
    induction l with
    | nil => intro _ _; rfl
    | cons entry l ih =>
      intro hnd halone
      obtain ⟨k2, e⟩ := entry
      simp only [List.map_cons, List.nodup_cons] at hnd
      have halone2 : KeyStandsAlone k (l.map Prod.fst) := fun k3 h3 hne =>
        halone k3 (List.mem_cons_of_mem _ h3) hne
      simp only [List.flatMap_cons, countPrefixed_append, ih hnd.2 halone2, List.map_cons,
        List.mem_cons]
      by_cases hkk : k = k2
      · subst hkk
        rw [countPrefixed_own, if_neg hnd.1]
        simp
      · rw [countPrefixed_other e (Ne.symm hkk)
          (halone k2 (List.mem_cons_self _ _) (Ne.symm hkk))]
        simp only [hkk, false_or, Nat.zero_add]
  rw [key net hnd halone, if_pos hk]


/-! ## The names sent by each section -/

theorem processStatsSection_names (res : Option ProcessStatsResponse) :
    ∀ m ∈ (processStatsSection res).sent, m.name ∈ processNames := by
  cases res with
  | none =>
    intro m hm
    simp [processStatsSection, deref, bind_eq, panicked_bind, goPanic] at hm
  | some r =>
    by_cases hne : r.Result.MoonrakerStats = []
    · intro m hm
      simp [processStatsSection, deref, bind_eq, pure_bind_eq, hne, index_nil, panicked_bind,
        goPanic] at hm
    · rw [processStatsSection_sent r hne]
      intro m hm
      simp only [List.mem_append, processStatsSiblings] at hm
      rcases hm with hm | hm
      · split at hm
        · simp only [List.mem_singleton] at hm
          subst hm
          simp [gauge, processNames]
        · simp at hm
      · simp only [List.mem_cons, List.mem_singleton, List.not_mem_nil, or_false] at hm
        rcases hm with rfl | rfl | rfl | rfl | rfl | rfl | rfl | rfl <;>
          simp [gauge, processNames]

theorem directoryInfoSection_names (c : collector) (up : Upstream) :
    ∀ m ∈ (directoryInfoSection c up).sent, m.name ∈ laterNames := by
  intro m hm
  simp only [directoryInfoSection, fetchMoonrakerDirectoryInfo, bind_eq] at hm
  cases hres : (up.directoryInfo c.target).result with
  | none => simp [hres, deref, GoM.bind, upstreamCall, pure_eq, goPanic] at hm
  | some r =>
    have hv := laterNames_valid
    simp only [laterNames, List.forall_mem_cons, List.not_mem_nil, false_implies,
      implies_true, and_true] at hv
    obtain ⟨v1, v2, v3, v4, v5⟩ := hv
    simp only [hres, deref, GoM.bind, upstreamCall, pure_eq, send, List.nil_append,
      List.mem_cons, List.mem_singleton, List.not_mem_nil, or_false, List.append_nil,
      List.singleton_append, MustNewConstMetric, v1, v2, v3, v4, v5, if_true] at hm
    rcases hm with rfl | rfl | rfl <;> simp [gauge, laterNames]

theorem jobQueueSection_names (c : collector) (up : Upstream) :
    ∀ m ∈ (jobQueueSection c up).sent, m.name ∈ laterNames := by
  intro m hm
  simp only [jobQueueSection, fetchMoonrakerJobQueue, bind_eq] at hm
  cases hres : (up.jobQueue c.target).result with
  | none => simp [hres, deref, GoM.bind, upstreamCall, pure_eq, goPanic] at hm
  | some r =>
    have hv := laterNames_valid
    simp only [laterNames, List.forall_mem_cons, List.not_mem_nil, false_implies,
      implies_true, and_true] at hv
    obtain ⟨v1, v2, v3, v4, v5⟩ := hv
    simp only [hres, deref, GoM.bind, upstreamCall, pure_eq, send, List.nil_append,
      List.mem_cons, List.mem_singleton, List.not_mem_nil, or_false, List.append_nil,
      List.singleton_append, MustNewConstMetric, v1, v2, v3, v4, v5, if_true] at hm
    subst hm
    simp [gauge, laterNames]

theorem systemInfoSection_names (c : collector) (up : Upstream) :
    ∀ m ∈ (systemInfoSection c up).sent, m.name ∈ laterNames := by
  intro m hm
  simp only [systemInfoSection, fetchMoonrakerSystemInfo, bind_eq] at hm
  cases hres : (up.systemInfo c.target).result with
  | none => simp [hres, deref, GoM.bind, upstreamCall, pure_eq, goPanic] at hm
  | some r =>
    have hv := laterNames_valid
    simp only [laterNames, List.forall_mem_cons, List.not_mem_nil, false_implies,
      implies_true, and_true] at hv
    obtain ⟨v1, v2, v3, v4, v5⟩ := hv
    simp only [hres, deref, GoM.bind, upstreamCall, pure_eq, send, List.nil_append,
      List.mem_cons, List.mem_singleton, List.not_mem_nil, or_false, List.append_nil,
      List.singleton_append, MustNewConstMetric, v1, v2, v3, v4, v5, if_true] at hm
    subst hm
    simp [gauge, laterNames]

theorem networkStatsSection_names (res : Option ProcessStatsResponse) :
    ∀ m ∈ (networkStatsSection res).sent, (str "klipper_network_") <+: m.name := by
  cases res with
  | none =>
    intro m hm
    simp [networkStatsSection, deref, bind_eq, panicked_bind, goPanic] at hm
  | some r =>
    intro m hm
    have hm2 := (networkStatsSection_sendsUpTo r).2.1.subset hm
    obtain ⟨entry, -, hm3⟩ := List.mem_flatMap.mp hm2
    have hn : m.name ∈ (interfaceMetrics entry).map Metric.name :=
      List.mem_map_of_mem _ hm3
    rw [interfaceMetrics_names] at hn
    obtain ⟨f, -, hf⟩ := List.mem_map.mp hn
    rw [← hf, networkMetricName, List.append_assoc, List.append_assoc]
    exact List.prefix_append _ _

theorem processNames_not_network :
    ∀ n ∈ processNames, ¬ (str "klipper_network_") <+: n := by
  intro n hn
  rw [← List.isPrefixOf_iff_prefix]
  revert n
  decide

theorem laterNames_not_network : ∀ n ∈ laterNames, ¬ (str "klipper_network_") <+: n := by
  intro n hn
  rw [← List.isPrefixOf_iff_prefix]
  revert n
  decide

/-! ## The shape of a cycle -/

/-- What the stats branch sends after a successful fetch, when the sample
sequence is not empty or `process_stats` is not selected. -/
theorem statsBranch_sent (c : collector) (up : Upstream) (r : ProcessStatsResponse)
    (hfetch : up.procStats c.target = Fetched.ok r)
    (hreach : str "process_stats" ∈ c.modules → r.Result.MoonrakerStats ≠ []) :
    (statsBranch c up).sent =
      (if str "process_stats" ∈ c.modules then (processStatsSection (some r)).sent else []) ++
      (if str "network_stats" ∈ c.modules then (networkStatsSection (some r)).sent else []) := by
  unfold statsBranch
  by_cases hps : str "process_stats" ∈ c.modules
  · have hps2 := contains_iff.mpr hps
    have hsec := processStatsSection_sent r (hreach hps)
    by_cases hns : str "network_stats" ∈ c.modules
    · have hns2 := contains_iff.mpr hns
      simp [ifThen, hps, hns, hps2, hns2, bind_eq, fetchMoonrakerProcessStats_eq, hfetch,
        Fetched.ok, GoM.bind, pure_eq, hsec]
    · have hns2 : Contains c.modules (str "network_stats") = false := by
        rw [← Bool.not_eq_true, contains_iff]; exact hns
      simp [ifThen, hps, hns, hps2, hns2, bind_eq, fetchMoonrakerProcessStats_eq, hfetch,
        Fetched.ok, GoM.bind, pure_eq, hsec]
  · have hps2 : Contains c.modules (str "process_stats") = false := by
      rw [← Bool.not_eq_true, contains_iff]; exact hps
    by_cases hns : str "network_stats" ∈ c.modules
    · have hns2 := contains_iff.mpr hns
      simp [ifThen, hps, hns, hps2, hns2, bind_eq, fetchMoonrakerProcessStats_eq, hfetch,
        Fetched.ok, GoM.bind, pure_eq]
    · have hns2 : Contains c.modules (str "network_stats") = false := by
        rw [← Bool.not_eq_true, contains_iff]; exact hns
      simp [ifThen, hps, hns, hps2, hns2, pure_eq]

/-- What `Collect` sends after the stats branch comes from the sections of the
other selected modules. -/
theorem collect_decomp (c : collector) (up : Upstream) :
    ∃ B : List Metric, (Collect c up).sent = (statsBranch c up).sent ++ B ∧
      ∀ m ∈ B, m.name ∈ laterNames ∨
        (str "temperature" ∈ c.modules ∧ m ∈ (temperatureSection c up).sent) := by
  obtain ⟨B, hB, hmem⟩ := sent_bind_decomp (statsBranch c up) (fun _ => do
    ifThen (Contains c.modules (str "directory_info")) (directoryInfoSection c up)
    ifThen (Contains c.modules (str "job_queue")) (jobQueueSection c up)
    ifThen (Contains c.modules (str "system_info")) (systemInfoSection c up)
    ifThen (Contains c.modules (str "temperature")) (temperatureSection c up))
  refine ⟨B, hB, fun m hm => ?_⟩
  obtain ⟨_, -, h⟩ := hmem m hm
  simp only [bind_eq] at h
  rcases mem_sent_bind h with h | ⟨_, -, h⟩
  · exact Or.inl (directoryInfoSection_names c up m (mem_sent_ifThen h).2)
  · rcases mem_sent_bind h with h | ⟨_, -, h⟩
    · exact Or.inl (jobQueueSection_names c up m (mem_sent_ifThen h).2)
    · rcases mem_sent_bind h with h | ⟨_, -, h⟩
      · exact Or.inl (systemInfoSection_names c up m (mem_sent_ifThen h).2)
      · obtain ⟨hb, h⟩ := mem_sent_ifThen h
        exact Or.inr ⟨contains_iff.mp hb, h⟩

theorem countPrefixed_eq_zero (k : GoString) (ms : List Metric)
    (h : ∀ m ∈ ms, ¬ (str "klipper_network_") <+: m.name) :
    countPrefixed (str "klipper_network_" ++ k ++ str "_") ms = 0 := by
  rw [countPrefixed, List.countP_eq_zero]
  intro m hm
  simp only [List.isPrefixOf_iff_prefix]
  intro hp
  refine h m hm (List.IsPrefix.trans ?_ hp)
  rw [List.append_assoc]
  exact List.prefix_append _ _

theorem networkStatsSection_observations (r : ProcessStatsResponse)
    (hvalid : ∀ k ∈ r.Result.Network.map Prod.fst, validKey k = true) :
    (networkStatsSection (some r)).sent.map Metric.observation =
      r.Result.Network.flatMap interfaceObservations := by
  rw [networkStatsSection_eq r hvalid]
  simp only [List.map_flatMap, interfaceMetrics_observations]


/-! ## The temperature section -/

theorem sliceTo_dropLast (s : GoString) (h : s ≠ []) :
    sliceTo s ((s.length : Int) - 1) = pure s.dropLast := by
  have hpos : 0 < s.length := List.length_pos.mpr h
  have h1 : ¬ ((s.length : Int) - 1 < 0 ∨ (s.length : Int) < (s.length : Int) - 1) := by omega
  have h2 : ((s.length : Int) - 1).toNat = s.length - 1 := by omega
  unfold sliceTo
  rw [if_neg h1, h2, List.dropLast_eq_take]

theorem lastSample_eq_some {v : JSONValue} {x : Float64} (h : lastSample v = some x) :
    ∃ xs : List JSONValue, ∃ hne : xs ≠ [], v = JSONValue.array xs ∧
      xs.getLast hne = JSONValue.number x := by
  cases v with
  | array xs =>
    simp only [lastSample] at h
    split at h
    · rename_i y hy
      have hne : xs ≠ [] := by
        intro h0; subst h0; simp at hy
      refine ⟨xs, hne, rfl, ?_⟩
      rw [List.getLast?_eq_getLast _ hne] at hy
      simp only [Option.some.injEq] at hy h
      rw [hy, h]
    · exact absurd h (by simp)
  | null => simp [lastSample] at h
  | bool b => simp [lastSample] at h
  | number y => simp [lastSample] at h
  | string s => simp [lastSample] at h
  | object kvs => simp [lastSample] at h

theorem wellFormedAttribute_iff (attr : GoString × JSONValue) :
    wellFormedAttribute attr = true ↔ attr.1 ≠ [] ∧ ∃ x, lastSample attr.2 = some x := by
  simp [wellFormedAttribute, Option.isSome_iff_exists]

theorem temperatureAttributeBody_eq (k : GoString) (attr : GoString × JSONValue)
    (x : Float64) (hkey : attr.1 ≠ []) (hlast : lastSample attr.2 = some x) :
    temperatureAttributeBody k (ReplaceAll k space underscore) attr =
      GoM.bind (MustNewConstMetric (temperatureName k (labelDroppingLast attr.1))
        (str "Klipper " ++ k ++ str " " ++ labelDroppingLast attr.1) (GaugeValue.float x))
        (fun m => send m) := by
  obtain ⟨xs, hne, hv, hx⟩ := lastSample_eq_some hlast
  unfold temperatureAttributeBody
  simp only [hv, assertSlice, bind_eq, pure_bind_eq, sliceTo_dropLast _ hkey, index_last _ hne,
    hx, assertFloat64, labelDroppingLast, temperatureName]

theorem filterMap_eq_flatMap_toList {α β : Type} (f : α → Option β) (l : List α) :
    l.filterMap f = l.flatMap (fun a => (f a).toList) := by
  induction l with
  | nil => rfl
  | cons a l ih =>
    rw [List.flatMap_cons, ← ih, List.filterMap_cons]
    cases f a <;> rfl

/-- The loop over the attributes of a sensor whose attributes are well formed. -/
theorem attributes_loop_sendsUpTo (sensor : GoString × JSONValue)
    (hwf : ∀ attr ∈ attributesOf sensor.2, wellFormedAttribute attr = true) :
    SendsUpTo
      (forRange (attributesOf sensor.2)
        (temperatureAttributeBody sensor.1 (ReplaceAll sensor.1 space underscore)))
      (sensorMetrics sensor) := by
  rw [sensorMetrics, filterMap_eq_flatMap_toList]
  refine sendsUpTo_forRange _ _ _ (fun attr hattr => ?_)
  obtain ⟨hkey, x, hx⟩ := (wellFormedAttribute_iff attr).mp (hwf attr hattr)
  rw [temperatureAttributeBody_eq sensor.1 attr x hkey hx, if_neg hkey, hx]
  exact sendsUpTo_metric _ _ _

theorem wellFormedSensor_iff (sensor : GoString × JSONValue) :
    wellFormedSensor sensor = true ↔
      ∃ attrs, sensor.2 = JSONValue.object attrs ∧
        ∀ attr ∈ attrs, wellFormedAttribute attr = true := by
  obtain ⟨k, v⟩ := sensor
  cases v <;> simp [wellFormedSensor]

theorem sensor_sendsUpTo (sensor : GoString × JSONValue)
    (hwf : wellFormedSensor sensor = true) :
    SendsUpTo (temperatureSensorBody sensor) (sensorMetrics sensor) := by
  obtain ⟨attrs, hv, hattrs⟩ := (wellFormedSensor_iff sensor).mp hwf
  have hb : temperatureSensorBody sensor =
      forRange (attributesOf sensor.2)
        (temperatureAttributeBody sensor.1 (ReplaceAll sensor.1 space underscore)) := by
    simp [temperatureSensorBody, hv, assertMap, bind_eq, pure_bind_eq, attributesOf]
  rw [hb]
  refine attributes_loop_sendsUpTo sensor ?_
  rw [hv]
  exact hattrs

/-- The loop over the sensors of a well-formed temperature answer. -/
theorem sensors_loop_sendsUpTo (resp : List (GoString × JSONValue))
    (hwf : wellFormedTemperature resp = true) :
    SendsUpTo (forRange resp temperatureSensorBody) (temperatureMetrics resp) := by
  simp only [wellFormedTemperature, List.all_eq_true] at hwf
  exact sendsUpTo_forRange _ _ _ (fun sensor hs => sensor_sendsUpTo sensor (hwf sensor hs))

theorem temperatureMetrics_observations (resp : List (GoString × JSONValue)) :
    (temperatureMetrics resp).map Metric.observation =
      temperatureObservations labelDroppingLast resp := by
  simp only [temperatureMetrics, temperatureObservations, List.map_flatMap, sensorMetrics,
    List.map_filterMap]
  congr 1
  funext sensor
  congr 1
  funext attr
  by_cases hkey : attr.1 = []
  · simp [hkey]
  · simp only [hkey, if_false, Option.map_map]
    rfl

theorem temperatureMetrics_length (resp : List (GoString × JSONValue))
    (hwf : wellFormedTemperature resp = true) :
    (temperatureMetrics resp).length = attributeCount resp := by
  simp only [wellFormedTemperature, List.all_eq_true] at hwf
  unfold temperatureMetrics attributeCount
  induction resp with
  | nil => rfl
  | cons sensor resp ih =>
    rw [List.flatMap_cons, List.length_append, ih (fun s hs => hwf s (List.mem_cons_of_mem _ hs)),
      List.map_cons, List.sum_cons]
    congr 1
    obtain ⟨attrs, hv, hattrs⟩ := (wellFormedSensor_iff sensor).mp (hwf sensor (List.mem_cons_self _ _))
    simp only [sensorMetrics, hv, attributesOf]
    clear hv
    induction attrs with
    | nil => rfl
    | cons attr attrs ih2 =>
      obtain ⟨hkey, x, hx⟩ := (wellFormedAttribute_iff attr).mp (hattrs attr (List.mem_cons_self _ _))
      rw [List.filterMap_cons, if_neg hkey, hx]
      simp only [Option.map_some', List.length_cons]
      rw [ih2 (fun a ha => hattrs a (List.mem_cons_of_mem _ ha))]

/-- The temperature section on a well-formed answer. -/
theorem temperatureSection_wf (c : collector) (up : Upstream) (resp : TemperatureResponse)
    (hfetch : up.temperature c.target = Fetched.ok resp)
    (hwf : wellFormedTemperature resp.Result = true) :
    (temperatureSection c up).calls = [Endpoint.temperatureStore] ∧
    (temperatureSection c up).sent <+: temperatureMetrics resp.Result ∧
    (AllValid (temperatureMetrics resp.Result) →
      (temperatureSection c up).completion = Completion.normal () ∧
      (temperatureSection c up).sent = temperatureMetrics resp.Result) := by
  obtain ⟨h1, h2, h3, h4⟩ := sensors_loop_sendsUpTo resp.Result hwf
  have : temperatureSection c up =
      { completion := (forRange resp.Result temperatureSensorBody).completion
        sent := (forRange resp.Result temperatureSensorBody).sent
        calls := Endpoint.temperatureStore :: (forRange resp.Result temperatureSensorBody).calls } := by
    simp [temperatureSection, fetchTemperatureData, hfetch, Fetched.ok, bind_eq, GoM.bind,
      upstreamCall, pure_eq, deref]
  rw [this]
  exact ⟨by simp [h1], h2, fun hv => ⟨h4 hv, h3 (h4 hv)⟩⟩

theorem contains_withoutTemperature (c : collector) (v : GoString) (hv : v ≠ str "temperature") :
    Contains (withoutTemperature c).modules v = Contains c.modules v := by
  rw [Bool.eq_iff_iff, contains_iff, contains_iff]
  simp [withoutTemperature, List.mem_filter, hv]

theorem contains_withoutTemperature_self (c : collector) :
    Contains (withoutTemperature c).modules (str "temperature") = false := by
  rw [← Bool.not_eq_true, contains_iff]
  simp [withoutTemperature, List.mem_filter]

/-- A cycle is the cycle without `temperature` followed by the temperature
branch. -/
theorem collect_eq_withoutTemperature (c : collector) (up : Upstream) :
    Collect c up =
      GoM.bind (Collect (withoutTemperature c) up) (fun _ =>
        ifThen (Contains c.modules (str "temperature")) (temperatureSection c up)) := by
  have hS : statsBranch (withoutTemperature c) up = statsBranch c up := by
    simp only [statsBranch, contains_withoutTemperature c _ (by decide : str "process_stats" ≠ _),
      contains_withoutTemperature c _ (by decide : str "network_stats" ≠ _)]
    rfl
  have hD : directoryInfoSection (withoutTemperature c) up = directoryInfoSection c up := rfl
  have hJ : jobQueueSection (withoutTemperature c) up = jobQueueSection c up := rfl
  have hI : systemInfoSection (withoutTemperature c) up = systemInfoSection c up := rfl
  simp only [Collect, bind_eq, hS, hD, hJ, hI, contains_withoutTemperature_self,
    contains_withoutTemperature c _ (by decide : str "directory_info" ≠ _),
    contains_withoutTemperature c _ (by decide : str "job_queue" ≠ _),
    contains_withoutTemperature c _ (by decide : str "system_info" ≠ _)]
  simp only [ifThen, Bool.false_eq_true, if_false, bind_pure_unit, bind_assoc_eq]

theorem temperatureObservations_congr (l1 l2 : GoString → GoString)
    (resp : List (GoString × JSONValue))
    (h : ∀ sensor ∈ resp, ∀ attr ∈ attributesOf sensor.2, l1 attr.1 = l2 attr.1) :
    temperatureObservations l1 resp = temperatureObservations l2 resp := by
  unfold temperatureObservations
  induction resp with
  | nil => rfl
  | cons sensor resp ih =>
    rw [List.flatMap_cons, List.flatMap_cons, ih (fun s hs => h s (List.mem_cons_of_mem _ hs))]
    congr 1
    have hs := h sensor (List.mem_cons_self _ _)
    generalize attributesOf sensor.2 = attrs at hs
    induction attrs with
    | nil => rfl
    | cons attr attrs ih2 =>
      rw [List.filterMap_cons, List.filterMap_cons, hs attr (List.mem_cons_self _ _),
        ih2 (fun a ha => hs a (List.mem_cons_of_mem _ ha))]

theorem labelStrippingS_of_plural (a : GoString) (h : a.getLast? = some letterS) :
    labelStrippingS a = labelDroppingLast a := by
  simp [labelStrippingS, labelDroppingLast, h]

/-! ## Distinct temperature names -/

theorem append_cons_inj_last {α : Type} {x1 x2 z1 z2 : List α} {a : α}
    (h1 : a ∉ z1) (h2 : a ∉ z2) (h : x1 ++ a :: z1 = x2 ++ a :: z2) :
    x1 = x2 ∧ z1 = z2 := by
  rcases List.append_eq_append_iff.mp h with ⟨t, rfl, ht⟩ | ⟨t, rfl, ht⟩
  · cases t with
    | nil => simp at ht; exact ⟨by simp, ht⟩
    | cons b t =>
      simp only [List.cons_append, List.cons.injEq] at ht
      exact absurd (ht.2 ▸ List.mem_append_right _ (List.mem_cons_self _ _)) h1
  · cases t with
    | nil => simp at ht; exact ⟨by simp, ht.symm⟩
    | cons b t =>
      simp only [List.cons_append, List.cons.injEq] at ht
      exact absurd (ht.2 ▸ List.mem_append_right _ (List.mem_cons_self _ _)) h2

theorem replaceAll_of_not_mem (s : GoString) (old new : UInt8) (h : old ∉ s) :
    ReplaceAll s old new = s := by
  unfold ReplaceAll
  conv_rhs => rw [← List.map_id s]
  apply List.map_congr_left
  intro b hb
  have : b ≠ old := fun e => h (e ▸ hb)
  simp [this]

theorem temperatureName_inj {s1 s2 l1 l2 : GoString}
    (h1 : underscore ∉ l1) (h2 : underscore ∉ l2)
    (h : temperatureName s1 l1 = temperatureName s2 l2) :
    ReplaceAll s1 space underscore = ReplaceAll s2 space underscore ∧ l1 = l2 := by
  have hu : str "_" = [underscore] := rfl
  simp only [temperatureName, hu, List.append_assoc, List.append_cancel_left_eq,
    List.singleton_append] at h
  exact append_cons_inj_last h1 h2 h

theorem observation_name_of_mem {label : GoString → GoString} {sensor : GoString}
    {attr : GoString × JSONValue} {b : GoString × GaugeValue}
    (h : b ∈ (if attr.1 = [] then none
      else (lastSample attr.2).map fun x =>
        (temperatureName sensor (label attr.1), GaugeValue.float x))) :
    b.1 = temperatureName sensor (label attr.1) := by
  split at h
  · simp at h
  · simp only [Option.mem_def, Option.map_eq_some'] at h
    obtain ⟨x, -, rfl⟩ := h
    rfl

theorem mem_temperatureObservations_names {label : GoString → GoString}
    {sensor : GoString × JSONValue} {n : GoString}
    (h : n ∈ ((attributesOf sensor.2).filterMap fun attr =>
        if attr.1 = [] then none
        else (lastSample attr.2).map fun x =>
          (temperatureName sensor.1 (label attr.1), GaugeValue.float x)).map Prod.fst) :
    ∃ attr ∈ attributesOf sensor.2, n = temperatureName sensor.1 (label attr.1) := by
  obtain ⟨b, hb, rfl⟩ := List.mem_map.mp h
  obtain ⟨attr, hattr, hfa⟩ := List.mem_filterMap.mp hb
  exact ⟨attr, hattr, observation_name_of_mem (Option.mem_def.mpr hfa)⟩

theorem temperatureObservations_names_nodup (resp : List (GoString × JSONValue))
    (hsensors : (resp.map (fun s => ReplaceAll s.1 space underscore)).Nodup)
    (hattrs : ∀ sensor ∈ resp, ((attributesOf sensor.2).map (fun a => a.1.dropLast)).Nodup)
    (hclean : ∀ sensor ∈ resp, ∀ attr ∈ attributesOf sensor.2,
      space ∉ attr.1.dropLast ∧ underscore ∉ attr.1.dropLast) :
    ((temperatureObservations labelDroppingLast resp).map Prod.fst).Nodup := by
  have hlabel : ∀ sensor ∈ resp, ∀ attr ∈ attributesOf sensor.2,
      labelDroppingLast attr.1 = attr.1.dropLast ∧ underscore ∉ labelDroppingLast attr.1 := by
    intro sensor hs attr ha
    have h := hclean sensor hs attr ha
    have e : labelDroppingLast attr.1 = attr.1.dropLast := replaceAll_of_not_mem _ _ _ h.1
    exact ⟨e, e ▸ h.2⟩
  unfold temperatureObservations
  rw [List.map_flatMap, List.nodup_flatMap]
  constructor
  · intro sensor hs
    rw [List.map_filterMap]
    unfold List.Nodup
    rw [List.pairwise_filterMap]
    have hp := List.pairwise_map.mp (hattrs sensor hs)
    refine (List.Pairwise.and_mem.mp hp).imp ?_
    rintro a a2 ⟨ha, ha2, hne⟩ b hb b2 hb2 heq
    simp only [Option.mem_def, Option.map_eq_some'] at hb hb2
    obtain ⟨o, ho, rfl⟩ := hb
    obtain ⟨o2, ho2, rfl⟩ := hb2
    have e1 := observation_name_of_mem (Option.mem_def.mpr ho)
    have e2 := observation_name_of_mem (Option.mem_def.mpr ho2)
    rw [heq, e2] at e1
    have := (temperatureName_inj (hlabel sensor hs a2 ha2).2 (hlabel sensor hs a ha).2 e1).2
    rw [(hlabel sensor hs a2 ha2).1, (hlabel sensor hs a ha).1] at this
    exact hne this.symm
  · have hp := List.pairwise_map.mp hsensors
    refine (List.Pairwise.and_mem.mp hp).imp ?_
    rintro s s2 ⟨hs, hs2, hne⟩
    simp only [Function.onFun]
    rw [List.disjoint_left]
    intro n hn hn2
    obtain ⟨a, ha, e1⟩ := mem_temperatureObservations_names hn
    obtain ⟨a2, ha2, e2⟩ := mem_temperatureObservations_names hn2
    rw [e1] at e2
    exact hne (temperatureName_inj (hlabel s hs a ha).2 (hlabel s2 hs2 a2 ha2).2 e2).1

/-! ## Failing upstream calls -/

/-- A failed stats fetch ends the cycle at once. -/
theorem collect_of_stats_failure (c : collector) (up : Upstream)
    (hsel : str "process_stats" ∈ c.modules ∨ str "network_stats" ∈ c.modules)
    (hfail : (up.procStats c.target).failed = true) :
    Collect c up =
      { completion := Completion.returned, sent := [], calls := [Endpoint.procStats] } := by
  have hb : (Contains c.modules (str "process_stats") ||
      Contains c.modules (str "network_stats")) = true := by
    rw [Bool.or_eq_true, contains_iff, contains_iff]; exact hsel
  simp [Collect, statsBranch, hb, ifThen, bind_eq, fetchMoonrakerProcessStats_eq, hfail,
    GoM.bind, goReturn]

/-! ## The handler -/

/-- The outcome of `handler` for a request with exactly one non-empty target. -/
theorem handler_of_valid (cfg : Settings) (r : Request) (t : GoString)
    (ht : r.query (str "target") = [t]) (hne : t ≠ []) :
    handler cfg r =
      HandlerOutcome.probe
        (New t (if (r.query (str "modules")).length > 0 then r.query (str "modules")
          else [str "process_stats", str "job_queue", str "system_info"]))
        (if r.authorization ≠ [] && HasPrefix r.authorization (str "APIKEY") then
          ReplaceFirst r.authorization (str "APIKEY ") []
        else if cfg.klipperApiKey ≠ [] then cfg.klipperApiKey
        else cfg.envApiKey) := by
  have hcond : ((r.query (str "target")).length ≠ 1 ||
      Get r.query (str "target") == []) = false := by
    simp [Get, ht, hne]
  simp only [handler, hcond, Bool.false_eq_true, if_false]
  simp only [Get, ht]

theorem replaceFirst_of_isPrefix (old new t : GoString) (hold : old ≠ []) :
    ReplaceFirst (old ++ t) old new = new ++ t := by
  cases old with
  | nil => exact absurd rfl hold
  | cons b old =>
    have hp : (b :: old).isPrefixOf (b :: (old ++ t)) = true := by
      rw [List.isPrefixOf_iff_prefix]
      exact List.prefix_append (b :: old) t
    simp only [List.cons_append, ReplaceFirst, hp, if_true]
    simp

theorem specCredential_of_not_scheme (cfg : Settings) (auth : GoString)
    (h : ¬ (str "APIKEY") <+: auth) :
    specCredential cfg auth =
      if cfg.klipperApiKey ≠ [] then cfg.klipperApiKey else cfg.envApiKey := by
  have h1 : (str "APIKEY ").isPrefixOf auth = false := by
    rw [← Bool.not_eq_true, List.isPrefixOf_iff_prefix]
    intro hp
    exact h (List.IsPrefix.trans (by decide : (str "APIKEY") <+: (str "APIKEY ")) hp)
  unfold specCredential
  rw [h1]
  by_cases hc : cfg.klipperApiKey = []
  · by_cases he : cfg.envApiKey = []
    · simp [hc, he]
    · simp [hc, he]
  · simp [hc]

/-! ## Distinct network names -/

theorem networkFields_suffix :
    ∀ f1 ∈ networkFields, ∀ f2 ∈ networkFields,
      (str "_" ++ f1) <:+ (str "_" ++ f2) → f1 = f2 := by
  decide

theorem networkMetricName_inj {k1 k2 f1 f2 : GoString}
    (h1 : f1 ∈ networkFields) (h2 : f2 ∈ networkFields)
    (h : networkMetricName k1 f1 = networkMetricName k2 f2) :
    k1 = k2 ∧ f1 = f2 := by
  simp only [networkMetricName, List.append_assoc, List.append_cancel_left_eq] at h
  have hs1 : (str "_" ++ f1) <:+ (k1 ++ (str "_" ++ f1)) := List.suffix_append _ _
  have hs2 : (str "_" ++ f2) <:+ (k1 ++ (str "_" ++ f1)) := by
    rw [h]; exact List.suffix_append _ _
  have hf : f1 = f2 := by
    rcases List.suffix_or_suffix_of_suffix hs1 hs2 with hs | hs
    · exact networkFields_suffix f1 h1 f2 h2 hs
    · exact (networkFields_suffix f2 h2 f1 h1 hs).symm
  subst hf
  exact ⟨List.append_cancel_right h, rfl⟩

theorem network_names_nodup (net : List (GoString × NetworkStat))
    (hnd : (net.map Prod.fst).Nodup) :
    (net.flatMap (fun entry => networkFields.map (networkMetricName entry.1))).Nodup := by
  rw [List.nodup_flatMap]
  constructor
  · intro entry _
    refine List.Nodup.map_on ?_ (by decide)
    intro f1 hf1 f2 hf2 h
    exact (networkMetricName_inj hf1 hf2 h).2
  · refine (List.pairwise_map.mp hnd).imp ?_
    intro e1 e2 hne
    simp only [Function.onFun]
    rw [List.disjoint_left]
    intro n hn1 hn2
    obtain ⟨f1, hf1, rfl⟩ := List.mem_map.mp hn1
    obtain ⟨f2, hf2, e⟩ := List.mem_map.mp hn2
    exact hne (networkMetricName_inj hf2 hf1 e).1.symm


/-! ## Valid names -/

theorem replaceAll_valid (s : GoString) (h : sanitizableKey s = true) :
    (ReplaceAll s space underscore).all validNameByte = true := by
  simp only [sanitizableKey, List.all_eq_true, Bool.or_eq_true, beq_iff_eq] at h
  simp only [ReplaceAll, List.all_eq_true, List.mem_map]
  rintro b ⟨a, ha, rfl⟩
  by_cases hs : a = space
  · simp only [hs, if_true]
    decide
  · simp only [hs, if_false]
    rcases h a ha with hv | hv
    · exact hv
    · exact absurd hv hs

theorem temperatureName_valid (sensor attr : GoString)
    (hs : sanitizableKey sensor = true) (ha : sanitizableKey attr.dropLast = true) :
    IsValidMetricName (temperatureName sensor (labelDroppingLast attr)) = true := by
  simp only [temperatureName, List.append_assoc]
  refine isValidMetricName_append (by decide) ?_
  rw [List.all_append, List.all_append, Bool.and_eq_true, Bool.and_eq_true]
  exact ⟨replaceAll_valid _ hs, by decide, replaceAll_valid _ ha⟩

theorem temperatureMetrics_valid (resp : List (GoString × JSONValue))
    (hs : ∀ sensor ∈ resp, sanitizableKey sensor.1 = true)
    (ha : ∀ sensor ∈ resp, ∀ attr ∈ attributesOf sensor.2,
      sanitizableKey attr.1.dropLast = true) :
    AllValid (temperatureMetrics resp) := by
  intro m hm
  obtain ⟨sensor, hsensor, hm2⟩ := List.mem_flatMap.mp hm
  obtain ⟨attr, hattr, hm3⟩ := List.mem_filterMap.mp hm2
  split at hm3
  · simp at hm3
  · simp only [Option.map_eq_some'] at hm3
    obtain ⟨x, -, rfl⟩ := hm3
    exact temperatureName_valid _ _ (hs sensor hsensor) (ha sensor hsensor attr hattr)

theorem networkStatsSection_names_prefix (r : ProcessStatsResponse) :
    (networkStatsSection (some r)).sent.map Metric.name <+:
      r.Result.Network.flatMap (fun entry => networkFields.map (networkMetricName entry.1)) := by
  have h := (networkStatsSection_sendsUpTo r).2.1.map Metric.name
  simp only [List.map_flatMap, interfaceMetrics_names] at h
  exact h

theorem networkStatsSection_names_eq (r : ProcessStatsResponse)
    (hvalid : ∀ k ∈ r.Result.Network.map Prod.fst, validKey k = true) :
    (networkStatsSection (some r)).sent.map Metric.name =
      r.Result.Network.flatMap (fun entry => networkFields.map (networkMetricName entry.1)) := by
  rw [networkStatsSection_eq r hvalid]
  simp only [List.map_flatMap, interfaceMetrics_names]

/-! ## Names that are not valid -/

/-- An interface key with a byte that may not occur in a metric name makes the
loop body panic at its first metric. -/
theorem networkInterfaceBody_of_invalid (entry : GoString × NetworkStat)
    (h : validKey entry.1 = false) : networkInterfaceBody entry = goPanic := by
  have hv : IsValidMetricName (str "klipper_network_" ++ entry.1 ++ str "_rx_bytes") = false := by
    rw [← Bool.not_eq_true, List.append_assoc, isValidMetricName_append_iff (by decide),
      List.all_append, Bool.and_eq_true]
    intro hc
    rw [validKey, hc.1] at h
    exact absurd h (by decide)
  simp only [networkInterfaceBody, bind_eq, MustNewConstMetric_of_invalid _ _ hv, goPanic_bind]

/-- The interface `br-lan`: the cycle panics in the network section. -/
theorem collect_dash_interface :
    Collect (New (str "printer") [str "network_stats"]) dashKeyUpstream =
      { completion := Completion.panicked, sent := [], calls := [Endpoint.procStats] } := by
  decide

/-- The sensor `bed-1`: the cycle panics in the temperature section. -/
theorem collect_dash_sensor :
    Collect (New (str "printer") [str "temperature"])
        (temperatureUpstream dashSensorTemperature) =
      { completion := Completion.panicked, sent := [], calls := [Endpoint.temperatureStore] } := by
  decide

/-! ## The claims -/

/-- C1: every metric `Collect` sends comes from the section of a module that is
in the module list, so a module that is not in the list contributes no metric;
and for the module list `[job_queue]` with a decoded job-queue answer the cycle
sends exactly one metric, `klipper_job_queue_length`, whose value is the number
of queued jobs. -/
theorem C1_only_selected_modules (c : collector) (up : Upstream) (r : JobQueueResponse)
    (hjq : up.jobQueue c.target = Fetched.ok r) :
    (∀ m ∈ (Collect c up).sent, ∃ module ∈ c.modules, m ∈ sectionSent c up module) ∧
    (c.modules = [str "job_queue"] →
      (Collect c up).sent =
        [gauge (str "klipper_job_queue_length") (str "Klipper job queue length.")
          (GaugeValue.ofInt r.Result.QueuedJobs.length)]) := by
  refine ⟨fun m hm => mem_sent_collect hm, fun hmod => ?_⟩
  rw [collect_jobQueue_only c up r hmod hjq]

/-- C1 at the module list `[job_queue]` and a queue of two jobs. -/
theorem C1_only_selected_modules_witness :
    (Collect (New (str "printer") [str "job_queue"]) (exampleUpstream (str "kB"))).sent =
      [gauge (str "klipper_job_queue_length") (str "Klipper job queue length.")
        (GaugeValue.ofInt 2)] :=
  (C1_only_selected_modules (New (str "printer") [str "job_queue"])
    (exampleUpstream (str "kB")) exampleJobQueue rfl).2 rfl

/-- C2 (amended): with `process_stats` selected, a successful stats fetch and a
non-empty sample sequence, the `process_stats` section sends
`klipper_moonraker_memory_kb` (with the memory integer of the last sample as
value) exactly when the memory unit of the last sample is `kB`, followed in
both cases by `klipper_moonraker_cpu_usage` and the seven other metrics of the
section; all of this is sent by `Collect`; and when `temperature` is not
selected, a metric named `klipper_moonraker_memory_kb` is among the metrics of
the cycle exactly when the unit is `kB`, its value being that memory integer. -/
theorem C2_memory_unit_gate (c : collector) (up : Upstream) (r : ProcessStatsResponse)
    (hsel : str "process_stats" ∈ c.modules)
    (hfetch : up.procStats c.target = Fetched.ok r)
    (hne : r.Result.MoonrakerStats ≠ []) :
    (processStatsSection (some r)).sent =
      (if (r.Result.MoonrakerStats.getLast hne).MemUnits = str "kB" then
        [gauge (str "klipper_moonraker_memory_kb") (str "Moonraker memory usage in Kb.")
          (GaugeValue.ofInt (r.Result.MoonrakerStats.getLast hne).Memory)]
      else []) ++ processStatsSiblings r (r.Result.MoonrakerStats.getLast hne) ∧
    (processStatsSection (some r)).sent <+: (Collect c up).sent ∧
    ((∃ m ∈ (processStatsSection (some r)).sent, m.name = str "klipper_moonraker_memory_kb") ↔
      (r.Result.MoonrakerStats.getLast hne).MemUnits = str "kB") ∧
    (str "temperature" ∉ c.modules →
      ((∃ m ∈ (Collect c up).sent, m.name = str "klipper_moonraker_memory_kb") ↔
        (r.Result.MoonrakerStats.getLast hne).MemUnits = str "kB") ∧
      ∀ m ∈ (Collect c up).sent, m.name = str "klipper_moonraker_memory_kb" →
        m.value = GaugeValue.ofInt (r.Result.MoonrakerStats.getLast hne).Memory) := by
  have hsec := congrArg GoM.sent (processStatsSection_sent r hne)
  simp only at hsec
  have hpre := processStats_prefix_collect c up r hsel hfetch
  -- membership in the section, by name
  have hsecmem : ∀ m ∈ (processStatsSection (some r)).sent,
      m.name = str "klipper_moonraker_memory_kb" →
      (r.Result.MoonrakerStats.getLast hne).MemUnits = str "kB" ∧
      m.value = GaugeValue.ofInt (r.Result.MoonrakerStats.getLast hne).Memory := by
    intro m hm hname
    rw [hsec, List.mem_append] at hm
    rcases hm with hm | hm
    · split at hm
      · rename_i hu
        simp only [List.mem_singleton] at hm
        subst hm
        exact ⟨hu, rfl⟩
      · simp at hm
    · simp only [processStatsSiblings, List.mem_cons, List.mem_singleton, List.not_mem_nil,
        or_false] at hm
      exfalso
      rcases hm with rfl | rfl | rfl | rfl | rfl | rfl | rfl | rfl <;>
        (simp only [gauge] at hname; exact absurd hname (by decide))
  have hsecmem2 : (r.Result.MoonrakerStats.getLast hne).MemUnits = str "kB" →
      ∃ m ∈ (processStatsSection (some r)).sent,
        m.name = str "klipper_moonraker_memory_kb" := by
    intro hu
    refine ⟨gauge (str "klipper_moonraker_memory_kb") (str "Moonraker memory usage in Kb.")
      (GaugeValue.ofInt (r.Result.MoonrakerStats.getLast hne).Memory), ?_, rfl⟩
    rw [hsec, if_pos hu]
    simp
  refine ⟨hsec, hpre, ⟨fun ⟨m, hm, hn⟩ => (hsecmem m hm hn).1, hsecmem2⟩, fun htemp => ?_⟩
  -- the whole cycle
  have hwhole : ∀ m ∈ (Collect c up).sent, m.name = str "klipper_moonraker_memory_kb" →
      m ∈ (processStatsSection (some r)).sent := by
    intro m hm hname
    obtain ⟨B, hB, hBmem⟩ := collect_decomp c up
    have hS := statsBranch_sent c up r hfetch (fun _ => hne)
    rw [hB, hS, if_pos hsel, List.mem_append, List.mem_append] at hm
    rcases hm with (hm | hm) | hm
    · exact hm
    · exfalso
      split at hm
      · have := networkStatsSection_names _ m hm
        rw [hname, ← List.isPrefixOf_iff_prefix] at this
        exact absurd this (by decide)
      · simp at hm
    · exfalso
      rcases hBmem m hm with h | h
      · rw [hname] at h
        exact absurd h (by decide)
      · exact htemp h.1
  refine ⟨⟨fun ⟨m, hm, hn⟩ => (hsecmem m (hwhole m hm hn) hn).1, fun hu => ?_⟩,
    fun m hm hn => (hsecmem m (hwhole m hm hn) hn).2⟩
  obtain ⟨m, hm, hn⟩ := hsecmem2 hu
  exact ⟨m, hpre.subset hm, hn⟩

/-- C2 as stated fails when `temperature` is selected too: with the memory unit
`MB` and the temperature answer `{"moonraker memory": {"kbs": [1.0]}}` the cycle
sends a metric named `klipper_moonraker_memory_kb`, which comes from the
temperature branch. -/
theorem C2_counterexample :
    str "process_stats" ∈
      (New (str "printer") [str "process_stats", str "temperature"]).modules ∧
    memoryNamedUpstream.procStats (str "printer") = Fetched.ok (exampleStats (str "MB")) ∧
    (exampleStats (str "MB")).Result.MoonrakerStats.getLast? =
      some { MemUnits := str "MB", Memory := 12345, CpuUsage := ⟨15, -1⟩ } ∧
    str "MB" ≠ str "kB" ∧
    (∃ m ∈ (Collect (New (str "printer") [str "process_stats", str "temperature"])
        memoryNamedUpstream).sent, m.name = str "klipper_moonraker_memory_kb") ∧
    (Collect (New (str "printer") [str "process_stats", str "temperature"])
        memoryNamedUpstream).sent.map Metric.name =
      processNames.tail ++ [str "klipper_moonraker_memory_kb"] := by
  refine ⟨by decide, rfl, rfl, by decide, by decide, by decide⟩

/-- C2 (amended) at a stats answer whose last sample has the unit `kB`: the
memory metric is among the metrics of the cycle. -/
theorem C2_memory_unit_gate_witness :
    ∃ m ∈ (Collect (New (str "printer") [str "process_stats"]) (exampleUpstream (str "kB"))).sent,
      m.name = str "klipper_moonraker_memory_kb" :=
  ((C2_memory_unit_gate (New (str "printer") [str "process_stats"]) (exampleUpstream (str "kB"))
    (exampleStats (str "kB")) (by decide) rfl (by decide)).2.2.2 (by decide)).1.mpr rfl

/-- C3 (amended): with `network_stats` selected, a successful stats fetch, a
network map with distinct keys made of bytes that may occur in a metric name
(letters, digits, underscores, colons), and a `process_stats` section that does
not fail (not selected, or a non-empty sample sequence), the `network_stats`
section completes and sends for every entry of the map, in the order of the
map, the nine metrics `klipper_network_<key>_<field>` for the fields `rx_bytes`,
`tx_bytes`, `rx_packets`, `tx_packets`, `rx_errs`, `tx_errs`, `rx_drop`,
`tx_drop`, `bandwidth`, carrying the counters of that interface; all of them are
sent by `Collect`; and for a key that stands alone (no other key begins with it
followed by an underscore, and it is not another key followed by `_rx` or
`_tx`) exactly nine metrics of the section, and when `temperature` is not
selected exactly nine metrics of the cycle, have a name beginning with
`klipper_network_<key>_`. -/
theorem C3_nine_metrics_per_interface (c : collector) (up : Upstream) (r : ProcessStatsResponse)
    (hsel : str "network_stats" ∈ c.modules)
    (hfetch : up.procStats c.target = Fetched.ok r)
    (hreach : str "process_stats" ∈ c.modules → r.Result.MoonrakerStats ≠ [])
    (hnd : (r.Result.Network.map Prod.fst).Nodup)
    (hvalid : ∀ k ∈ r.Result.Network.map Prod.fst, validKey k = true) :
    (networkStatsSection (some r)).completion = Completion.normal () ∧
    (networkStatsSection (some r)).sent.map Metric.observation =
      r.Result.Network.flatMap interfaceObservations ∧
    (networkStatsSection (some r)).sent <:+: (Collect c up).sent ∧
    ∀ k ∈ r.Result.Network.map Prod.fst, KeyStandsAlone k (r.Result.Network.map Prod.fst) →
      countPrefixed (str "klipper_network_" ++ k ++ str "_")
        (networkStatsSection (some r)).sent = 9 ∧
      (str "temperature" ∉ c.modules →
        countPrefixed (str "klipper_network_" ++ k ++ str "_") (Collect c up).sent = 9) := by
  obtain ⟨B, hB, hBmem⟩ := collect_decomp c up
  have hS := statsBranch_sent c up r hfetch hreach
  rw [if_pos hsel] at hS
  refine ⟨by rw [networkStatsSection_eq r hvalid],
    networkStatsSection_observations r hvalid, ?_, fun k hk halone => ?_⟩
  · rw [hB, hS]
    exact ⟨_, B, rfl⟩
  · have hsec : countPrefixed (str "klipper_network_" ++ k ++ str "_")
        (networkStatsSection (some r)).sent = 9 := by
      rw [networkStatsSection_eq r hvalid]
      exact countPrefixed_network k _ hnd hk halone
    refine ⟨hsec, fun htemp => ?_⟩
    rw [hB, hS, countPrefixed_append, countPrefixed_append, hsec,
      countPrefixed_eq_zero k B, countPrefixed_eq_zero k]
    · intro m hm
      split at hm
      · exact processNames_not_network _ (processStatsSection_names _ m hm)
      · simp at hm
    · intro m hm
      rcases hBmem m hm with h | h
      · exact laterNames_not_network _ h
      · exact absurd h.1 htemp

/-- C3 as stated fails for the interfaces `eth0` and `eth0_vlan`: eighteen
metrics of the cycle, not nine, have a name beginning with
`klipper_network_eth0_`. -/
theorem C3_counterexample :
    str "network_stats" ∈ (New (str "printer") [str "network_stats"]).modules ∧
    overlappingUpstream.procStats (str "printer") = Fetched.ok overlappingStats ∧
    (overlappingStats.Result.Network.map Prod.fst).Nodup ∧
    (∀ k ∈ overlappingStats.Result.Network.map Prod.fst, validKey k = true) ∧
    str "eth0" ∈ overlappingStats.Result.Network.map Prod.fst ∧
    countPrefixed (str "klipper_network_" ++ str "eth0" ++ str "_")
      (Collect (New (str "printer") [str "network_stats"]) overlappingUpstream).sent = 18 := by
  refine ⟨by decide, rfl, by decide, by decide, by decide, by decide⟩

/-- C3 (amended) at the interfaces `eth0` and `wlan0`: nine metrics of the
cycle begin with `klipper_network_wlan0_`. -/
theorem C3_nine_metrics_per_interface_witness :
    countPrefixed (str "klipper_network_" ++ str "wlan0" ++ str "_")
      (Collect (New (str "printer") [str "process_stats", str "network_stats"])
        (exampleUpstream (str "kB"))).sent = 9 :=
  ((C3_nine_metrics_per_interface
    (New (str "printer") [str "process_stats", str "network_stats"])
    (exampleUpstream (str "kB")) (exampleStats (str "kB")) (by decide) rfl
    (fun _ => by decide) (by decide) (by decide)).2.2.2 (str "wlan0") (by decide) (by
      intro k2 hk2 hne
      simp only [exampleStats, List.map_cons, List.map_nil, List.mem_cons, List.mem_singleton,
        List.not_mem_nil, or_false] at hk2
      rcases hk2 with rfl | rfl
      · decide
      · exact absurd rfl hne)).2 (by decide)

/-- C4 (amended): with `temperature` selected and a well-formed temperature
answer (each sensor value a mapping, each attribute key non-empty, each
attribute value a non-empty sequence ending in a number) whose sensor keys, and
whose attribute keys without their last byte, are made of letters, digits,
underscores, colons and spaces, the temperature branch completes and sends
exactly one metric for each sensor `s` and each attribute `a`, in the order of
the answer; its name is `klipper_` followed by `s` with spaces replaced by
underscores, an underscore, and `a` with its last byte removed (whatever that
byte is) and spaces replaced by underscores; its value is the last sample of
the attribute. When every attribute key ends in `s` this is the name with the
trailing `s` stripped. When the cycle without `temperature` completes, these
metrics are the last ones of the cycle. -/
theorem C4_temperature_metrics (c : collector) (up : Upstream) (resp : TemperatureResponse)
    (hsel : str "temperature" ∈ c.modules)
    (hfetch : up.temperature c.target = Fetched.ok resp)
    (hwf : wellFormedTemperature resp.Result = true)
    (hsensors : ∀ sensor ∈ resp.Result, sanitizableKey sensor.1 = true)
    (hattrs : ∀ sensor ∈ resp.Result, ∀ attr ∈ attributesOf sensor.2,
      sanitizableKey attr.1.dropLast = true) :
    (temperatureSection c up).completion = Completion.normal () ∧
    (temperatureSection c up).sent.map Metric.observation =
      temperatureObservations labelDroppingLast resp.Result ∧
    (temperatureSection c up).sent.length = attributeCount resp.Result ∧
    ((∀ sensor ∈ resp.Result, ∀ attr ∈ attributesOf sensor.2,
        attr.1.getLast? = some letterS) →
      (temperatureSection c up).sent.map Metric.observation =
        temperatureObservations labelStrippingS resp.Result) ∧
    ((Collect (withoutTemperature c) up).completion = Completion.normal () →
      (Collect c up).completion = Completion.normal () ∧
      (Collect c up).sent =
        (Collect (withoutTemperature c) up).sent ++ (temperatureSection c up).sent) := by
  obtain ⟨h1, hsent⟩ := (temperatureSection_wf c up resp hfetch hwf).2.2
    (temperatureMetrics_valid resp.Result hsensors hattrs)
  have h3 : (temperatureSection c up).sent.map Metric.observation =
      temperatureObservations labelDroppingLast resp.Result := by
    rw [hsent, temperatureMetrics_observations]
  have h4 : (temperatureSection c up).sent.length = attributeCount resp.Result := by
    rw [hsent, temperatureMetrics_length _ hwf]
  refine ⟨h1, h3, h4, fun hplural => ?_, fun hpre => ?_⟩
  · rw [h3]
    exact temperatureObservations_congr _ _ _ (fun s hs a ha =>
      (labelStrippingS_of_plural a.1 (hplural s hs a ha)).symm)
  · rw [collect_eq_withoutTemperature c up, bind_of_normal _ hpre, contains_iff.mpr hsel]
    exact ⟨h1, rfl⟩

/-- C4 as stated fails for `{"fan": {"speed": [0.5]}}`: the key `speed` does not
end in `s`, yet the metric sent is `klipper_fan_spee`, not `klipper_fan_speed`. -/
theorem C4_counterexample :
    str "temperature" ∈ (New (str "printer") [str "temperature"]).modules ∧
    wellFormedTemperature fanSpeedTemperature.Result = true ∧
    (Collect (New (str "printer") [str "temperature"])
        (temperatureUpstream fanSpeedTemperature)).sent.map Metric.observation =
      [(str "klipper_fan_spee", GaugeValue.float ⟨5, -1⟩)] ∧
    temperatureObservations labelStrippingS fanSpeedTemperature.Result =
      [(str "klipper_fan_speed", GaugeValue.float ⟨5, -1⟩)] ∧
    (Collect (New (str "printer") [str "temperature"])
        (temperatureUpstream fanSpeedTemperature)).sent.map Metric.observation ≠
      temperatureObservations labelStrippingS fanSpeedTemperature.Result := by
  refine ⟨by decide, by decide, by decide, by decide, by decide⟩

/-- C4 (amended) at `{"extruder": {"temperatures": [10.0, 25.5]}}`: the section
sends `klipper_extruder_temperature` with the value 25.5. -/
theorem C4_temperature_metrics_witness :
    (temperatureSection (New (str "printer") [str "temperature"])
        (exampleUpstream (str "kB"))).sent.map Metric.observation =
      [(str "klipper_extruder_temperature", GaugeValue.float ⟨255, -1⟩)] :=
  (C4_temperature_metrics (New (str "printer") [str "temperature"])
    (exampleUpstream (str "kB")) exampleTemperature (by decide) rfl (by decide) (by decide)
    (by decide)).2.1

/-- C5 (the code at the failing input): when `process_stats` or `network_stats`
is selected and the stats call returns an error, the `return` of the stats
branch ends the whole cycle: nothing is sent, although `job_queue` is selected
and its own section, run on the answer of the job-queue endpoint, sends
`klipper_job_queue_length`. -/
theorem C5_stats_error_ends_cycle (c : collector) (up : Upstream)
    (hsel : str "process_stats" ∈ c.modules ∨ str "network_stats" ∈ c.modules)
    (_hother : str "job_queue" ∈ c.modules)
    (hfail : (up.procStats c.target).failed = true)
    (r : JobQueueResponse) (hjq : up.jobQueue c.target = Fetched.ok r) :
    (Collect c up).completion = Completion.returned ∧
    (Collect c up).sent = [] ∧
    (jobQueueSection c up).sent =
      [gauge (str "klipper_job_queue_length") (str "Klipper job queue length.")
        (GaugeValue.ofInt r.Result.QueuedJobs.length)] := by
  rw [collect_of_stats_failure c up hsel hfail]
  refine ⟨rfl, rfl, ?_⟩
  have hv : IsValidMetricName (str "klipper_job_queue_length") = true := by decide
  simp [jobQueueSection, fetchMoonrakerJobQueue, hjq, Fetched.ok, bind_eq, GoM.bind,
    upstreamCall, pure_eq, deref, send, MustNewConstMetric, hv]

/-- C5 at the module list `[process_stats, job_queue]` with a failing stats
call: the cycle sends nothing. -/
theorem C5_stats_error_ends_cycle_witness :
    (Collect (New (str "printer") [str "process_stats", str "job_queue"])
      statsDownUpstream).sent = [] :=
  (C5_stats_error_ends_cycle (New (str "printer") [str "process_stats", str "job_queue"])
    statsDownUpstream (Or.inl (by decide)) (by decide) rfl exampleJobQueue rfl).2.1

/-- C6 (the code at the failing input): the `job_queue` branch discards the
error of its fetch. When the fetch returns an error together with a response,
the cycle still sends `klipper_job_queue_length` computed from that response;
when it returns an error together with a nil response, the cycle panics on the
dereference. -/
theorem C6_fetch_error_discarded (target : GoString) (up : Upstream) :
    (∀ r : JobQueueResponse, up.jobQueue target = ⟨some r, true⟩ →
      Collect (New target [str "job_queue"]) up =
        { completion := Completion.normal ()
          sent := [gauge (str "klipper_job_queue_length") (str "Klipper job queue length.")
            (GaugeValue.ofInt r.Result.QueuedJobs.length)]
          calls := [Endpoint.jobQueue] }) ∧
    (up.jobQueue target = ⟨none, true⟩ →
      Collect (New target [str "job_queue"]) up =
        { completion := Completion.panicked, sent := [], calls := [Endpoint.jobQueue] }) := by
  have h1 : Contains [str "job_queue"] (str "process_stats") = false := by decide
  have h2 : Contains [str "job_queue"] (str "network_stats") = false := by decide
  have h3 : Contains [str "job_queue"] (str "directory_info") = false := by decide
  have h4 : Contains [str "job_queue"] (str "job_queue") = true := by decide
  have h5 : Contains [str "job_queue"] (str "system_info") = false := by decide
  have h6 : Contains [str "job_queue"] (str "temperature") = false := by decide
  have hv : IsValidMetricName (str "klipper_job_queue_length") = true := by decide
  constructor
  · intro r h
    simp [Collect, statsBranch, New, h1, h2, h3, h4, h5, h6, jobQueueSection,
      fetchMoonrakerJobQueue, h, bind_eq, pure_eq, GoM.bind, deref, send, upstreamCall, ifThen,
      MustNewConstMetric, hv]
  · intro h
    simp [Collect, statsBranch, New, h1, h2, h3, h4, h5, h6, jobQueueSection,
      fetchMoonrakerJobQueue, h, bind_eq, pure_eq, GoM.bind, deref, send, upstreamCall, ifThen,
      goPanic]

/-- C6 at the module list `[job_queue]` and a job-queue call that returns an
error with an empty response: the cycle sends `klipper_job_queue_length` = 0. -/
theorem C6_fetch_error_discarded_witness :
    (Collect (New (str "printer") [str "job_queue"])
      (jobQueueUpstream ⟨some { Result := { QueuedJobs := [] } }, true⟩)).sent =
      [gauge (str "klipper_job_queue_length") (str "Klipper job queue length.")
        (GaugeValue.ofInt 0)] :=
  congrArg GoM.sent ((C6_fetch_error_discarded (str "printer")
    (jobQueueUpstream ⟨some { Result := { QueuedJobs := [] } }, true⟩)).1 _ rfl)

/-- C7 (the code at failing inputs): on the answer
`{"chamber": {"temperatures": []}, "extruder": {"temperatures": [25.5]}}` the
cycle panics on the empty sample sequence and sends nothing, although the
observation of `extruder` is well formed; the cycle also panics on a sensor
value that is not a mapping, on an attribute value that is not a sequence, on a
last sample that is not a number, and on an empty attribute key. -/
theorem C7_malformed_temperature_panics :
    (Collect (New (str "printer") [str "temperature"])
        (temperatureUpstream emptySamplesTemperature) =
      { completion := Completion.panicked, sent := [], calls := [Endpoint.temperatureStore] }) ∧
    temperatureObservations labelDroppingLast emptySamplesTemperature.Result =
      [(str "klipper_extruder_temperature", GaugeValue.float ⟨255, -1⟩)] ∧
    (Collect (New (str "printer") [str "temperature"])
        (temperatureUpstream (oneSensorTemperature (JSONValue.number ⟨255, -1⟩)))).completion =
      Completion.panicked ∧
    (Collect (New (str "printer") [str "temperature"])
        (temperatureUpstream (oneSensorTemperature
          (JSONValue.object [(str "temperatures", JSONValue.number ⟨255, -1⟩)])))).completion =
      Completion.panicked ∧
    (Collect (New (str "printer") [str "temperature"])
        (temperatureUpstream (oneSensorTemperature
          (JSONValue.object [(str "temperatures",
            JSONValue.array [JSONValue.string (str "hot")])])))).completion =
      Completion.panicked ∧
    (Collect (New (str "printer") [str "temperature"])
        (temperatureUpstream (oneSensorTemperature
          (JSONValue.object [([], JSONValue.array [JSONValue.number ⟨255, -1⟩])])))).completion =
      Completion.panicked := by
  refine ⟨by decide, by decide, by decide, by decide, by decide, by decide⟩

/-- C8 (the code at the failing input): when `process_stats` or `network_stats`
is selected and the stats call returns an error, the stats call is the only
upstream call of the cycle, whatever other modules are selected. -/
theorem C8_stats_error_skips_calls (c : collector) (up : Upstream)
    (hsel : str "process_stats" ∈ c.modules ∨ str "network_stats" ∈ c.modules)
    (hfail : (up.procStats c.target).failed = true) :
    (Collect c up).calls = [Endpoint.procStats] := by
  rw [collect_of_stats_failure c up hsel hfail]

/-- C8 at the module list `[process_stats, job_queue]` with a failing stats
call: the job-queue endpoint is not called although `job_queue` is selected. -/
theorem C8_stats_error_skips_calls_witness :
    str "job_queue" ∈ (New (str "printer") [str "process_stats", str "job_queue"]).modules ∧
    Endpoint.jobQueue ∉
      (Collect (New (str "printer") [str "process_stats", str "job_queue"])
        statsDownUpstream).calls := by
  refine ⟨by decide, ?_⟩
  rw [C8_stats_error_skips_calls _ statsDownUpstream (Or.inl (by decide)) rfl]
  decide

/-- C9 (amended): for a well-formed temperature answer whose sensor keys stay
pairwise distinct after spaces are replaced by underscores, and whose attribute
keys, within each sensor, stay pairwise distinct after their last byte is
removed and have neither a space nor an underscore before that last byte, the
names of the metrics the temperature branch sends are pairwise distinct. -/
theorem C9_temperature_names_distinct (c : collector) (up : Upstream)
    (resp : TemperatureResponse)
    (hfetch : up.temperature c.target = Fetched.ok resp)
    (hwf : wellFormedTemperature resp.Result = true)
    (hsensors : (resp.Result.map (fun s => ReplaceAll s.1 space underscore)).Nodup)
    (hattrs : ∀ sensor ∈ resp.Result,
      ((attributesOf sensor.2).map (fun a => a.1.dropLast)).Nodup)
    (hclean : ∀ sensor ∈ resp.Result, ∀ attr ∈ attributesOf sensor.2,
      space ∉ attr.1.dropLast ∧ underscore ∉ attr.1.dropLast) :
    ((temperatureSection c up).sent.map Metric.name).Nodup := by
  have hpre := (temperatureSection_wf c up resp hfetch hwf).2.1
  have hnames : ∀ ms : List Metric,
      ms.map Metric.name = (ms.map Metric.observation).map Prod.fst := by
    intro ms
    rw [List.map_map]
    rfl
  have hall : ((temperatureMetrics resp.Result).map Metric.name).Nodup := by
    rw [hnames, temperatureMetrics_observations]
    exact temperatureObservations_names_nodup resp.Result hsensors hattrs hclean
  exact hall.sublist (hpre.map Metric.name).sublist

/-- C9 as stated fails for the distinct sensor keys `heater bed` and
`heater_bed`: both yield the name `klipper_heater_bed_temperature`. -/
theorem C9_counterexample :
    wellFormedTemperature collidingTemperature.Result = true ∧
    (collidingTemperature.Result.map Prod.fst).Nodup ∧
    (∀ sensor ∈ collidingTemperature.Result,
      ((attributesOf sensor.2).map Prod.fst).Nodup) ∧
    (Collect (New (str "printer") [str "temperature"])
        (temperatureUpstream collidingTemperature)).sent.map Metric.name =
      [str "klipper_heater_bed_temperature", str "klipper_heater_bed_temperature"] ∧
    ¬ ((Collect (New (str "printer") [str "temperature"])
        (temperatureUpstream collidingTemperature)).sent.map Metric.name).Nodup := by
  refine ⟨by decide, by decide, by decide, by decide, by decide⟩

/-- C9 (amended) at an answer with the sensors `extruder` and `heater_bed`, of
two attributes each. -/
theorem C9_temperature_names_distinct_witness :
    ((temperatureSection (New (str "printer") [str "temperature"])
      (temperatureUpstream twoSensorTemperature)).sent.map Metric.name).Nodup :=
  C9_temperature_names_distinct (New (str "printer") [str "temperature"])
    (temperatureUpstream twoSensorTemperature) twoSensorTemperature rfl (by decide) (by decide)
    (by decide) (by decide)

/-- C10: `handler` answers with HTTP 400 and the message `'target' parameter
must be specified once` exactly when the query does not hold exactly one
non-empty `target` value; such an answer always carries that message and that
code, builds no collector and makes no upstream call; and with exactly one
non-empty `target` value the handler builds a collector for that target. -/
theorem C10_target_validation (cfg : Settings) (r : Request) (up : Upstream) :
    (handler cfg r =
        HandlerOutcome.httpError (str "'target' parameter must be specified once") 400 ↔
      ¬ ∃ t, r.query (str "target") = [t] ∧ t ≠ []) ∧
    (∀ body code, handler cfg r = HandlerOutcome.httpError body code →
      body = str "'target' parameter must be specified once" ∧ code = 400 ∧
      upstreamCalls up (handler cfg r) = []) ∧
    (∀ t, r.query (str "target") = [t] → t ≠ [] →
      ∃ modules apiKey, handler cfg r = HandlerOutcome.probe (New t modules) apiKey) := by
  have hprobe : ∀ t, r.query (str "target") = [t] → t ≠ [] →
      ∃ modules apiKey, handler cfg r = HandlerOutcome.probe (New t modules) apiKey := by
    intro t ht hne
    refine ⟨if (r.query (str "modules")).length > 0 then r.query (str "modules")
        else [str "process_stats", str "job_queue", str "system_info"],
      if r.authorization ≠ [] && HasPrefix r.authorization (str "APIKEY") then
        ReplaceFirst r.authorization (str "APIKEY ") []
      else if cfg.klipperApiKey ≠ [] then cfg.klipperApiKey
      else cfg.envApiKey, ?_⟩
    have hcond : ((r.query (str "target")).length ≠ 1 ||
        Get r.query (str "target") == []) = false := by
      simp [Get, ht, hne]
    simp only [handler, hcond, Bool.false_eq_true, if_false]
    simp only [Get, ht]
  have herr : (¬ ∃ t, r.query (str "target") = [t] ∧ t ≠ []) →
      handler cfg r =
        HandlerOutcome.httpError (str "'target' parameter must be specified once") 400 := by
    intro hno
    have hcond : ((r.query (str "target")).length ≠ 1 ||
        Get r.query (str "target") == []) = true := by
      rcases hq : r.query (str "target") with _ | ⟨t, _ | ⟨t2, rest⟩⟩
      · simp
      · have : t = [] := by
          by_contra hne
          exact hno ⟨t, hq, hne⟩
        simp [Get, hq, this]
      · simp
    simp only [handler, hcond, if_true]
  refine ⟨⟨fun h hex => ?_, herr⟩, fun body code h => ?_, hprobe⟩
  · obtain ⟨t, ht, hne⟩ := hex
    obtain ⟨modules, apiKey, hp⟩ := hprobe t ht hne
    rw [hp] at h
    exact absurd h (by simp)
  · by_cases hex : ∃ t, r.query (str "target") = [t] ∧ t ≠ []
    · obtain ⟨t, ht, hne⟩ := hex
      obtain ⟨modules, apiKey, hp⟩ := hprobe t ht hne
      rw [hp] at h
      exact absurd h (by simp)
    · have h2 := herr hex
      rw [h2] at h
      simp only [HandlerOutcome.httpError.injEq] at h
      exact ⟨h.1.symm, h.2.symm, by rw [h2]; rfl⟩

/-- C11 (the code at the failing input): for a request with exactly one
non-empty target, the credential passed to the collector is the token `t` when
the `Authorization` header is `APIKEY ` followed by `t`, and it is the
command-line key, else the environment variable, else the empty string, when
the header does not begin with `APIKEY`. But whenever the header begins with
`APIKEY`, with or without the space, the credential is the header with its
first `APIKEY ` removed and nothing falls back: for the header `APIKEYtok` and
the command-line key `cli-key` the credential is `APIKEYtok`, where the
resolution by the specification gives `cli-key`. -/
theorem C11_credential_resolution (cfg : Settings) (r : Request) (target : GoString)
    (ht : r.query (str "target") = [target]) (hne : target ≠ []) :
    (∀ t, r.authorization = str "APIKEY " ++ t → (handler cfg r).credential = some t) ∧
    (¬ (str "APIKEY") <+: r.authorization →
      (handler cfg r).credential = some (specCredential cfg r.authorization)) ∧
    ((str "APIKEY") <+: r.authorization →
      (handler cfg r).credential =
        some (ReplaceFirst r.authorization (str "APIKEY ") [])) ∧
    ((handler exampleSettings
        (probeRequest [str "printer"] [] (str "APIKEYtok"))).credential =
      some (str "APIKEYtok") ∧
      specCredential exampleSettings (str "APIKEYtok") = str "cli-key") := by
  rw [handler_of_valid cfg r target ht hne]
  refine ⟨fun t hauth => ?_, fun hno => ?_, fun hpre => ?_, by decide, by decide⟩
  · have hcond : (r.authorization ≠ [] && HasPrefix r.authorization (str "APIKEY")) = true := by
      rw [hauth]
      simp only [Bool.and_eq_true, decide_eq_true_eq, HasPrefix, List.isPrefixOf_iff_prefix]
      refine ⟨fun h0 => ?_, ?_⟩
      · exact absurd (List.append_eq_nil.mp h0).1 (by decide)
      exact List.IsPrefix.trans (by decide : (str "APIKEY") <+: (str "APIKEY "))
        (List.prefix_append _ _)
    simp only [HandlerOutcome.credential, hcond, if_true, hauth]
    rw [replaceFirst_of_isPrefix _ _ _ (by decide)]
    rfl
  · have hcond : (r.authorization ≠ [] && HasPrefix r.authorization (str "APIKEY")) = false := by
      rw [Bool.and_eq_false_iff]
      right
      rw [← Bool.not_eq_true, HasPrefix, List.isPrefixOf_iff_prefix]
      exact hno
    simp only [HandlerOutcome.credential, hcond, Bool.false_eq_true, if_false,
      specCredential_of_not_scheme cfg _ hno]

  · have hcond : (r.authorization ≠ [] && HasPrefix r.authorization (str "APIKEY")) = true := by
      simp only [Bool.and_eq_true, decide_eq_true_eq, HasPrefix, List.isPrefixOf_iff_prefix]
      refine ⟨fun h0 => ?_, hpre⟩
      rw [h0] at hpre
      exact absurd (List.prefix_nil.mp hpre) (by decide)
    simp only [HandlerOutcome.credential, hcond, if_true]

/-- C11 at the header `APIKEY tok`: the credential is `tok`, not the
command-line key. -/
theorem C11_credential_resolution_witness :
    (handler exampleSettings
      (probeRequest [str "printer"] [] (str "APIKEY tok"))).credential = some (str "tok") :=
  (C11_credential_resolution exampleSettings
    (probeRequest [str "printer"] [] (str "APIKEY tok")) (str "printer") rfl (by decide)).1
    (str "tok") rfl


/-- C12: for a request with exactly one non-empty target, the collector is built
with the module list `[process_stats, job_queue, system_info]` when the query
has no `modules` value, and with exactly the `modules` values of the query, in
their order, when it has at least one. -/
theorem C12_module_list (cfg : Settings) (r : Request) (target : GoString)
    (ht : r.query (str "target") = [target]) (hne : target ≠ []) :
    (r.query (str "modules") = [] →
      (handler cfg r).built =
        some (New target [str "process_stats", str "job_queue", str "system_info"])) ∧
    (r.query (str "modules") ≠ [] →
      (handler cfg r).built = some (New target (r.query (str "modules")))) := by
  rw [handler_of_valid cfg r target ht hne]
  constructor
  · intro h
    simp [HandlerOutcome.built, h]
  · intro h
    have hpos : (r.query (str "modules")).length > 0 := List.length_pos.mpr h
    simp [HandlerOutcome.built, hpos]

/-- C12 at the query `modules=temperature&modules=job_queue`: the module list
is `[temperature, job_queue]`. -/
theorem C12_module_list_witness :
    (handler exampleSettings
      (probeRequest [str "printer"] [str "temperature", str "job_queue"] [])).built =
      some (New (str "printer") [str "temperature", str "job_queue"]) :=
  (C12_module_list exampleSettings
    (probeRequest [str "printer"] [str "temperature", str "job_queue"] []) (str "printer")
    rfl (by decide)).2 (by decide)

/-- C13: the map from an interface key and one of the nine fields to the name
`klipper_network_<key>_<field>` is injective, for arbitrary keys; hence for a
network map with pairwise distinct keys the names the `network_stats` section
sends are pairwise distinct. They are the names `klipper_network_<key>_<field>`
in the order of the map, nine per entry, up to the first key with a byte that
may not occur in a metric name; when every key is made of bytes that may occur
in a metric name they are all these names, `9 * n` in all. -/
theorem C13_network_names_injective (r : ProcessStatsResponse)
    (hnd : (r.Result.Network.map Prod.fst).Nodup) :
    (∀ k1 k2 f1 f2 : GoString, f1 ∈ networkFields → f2 ∈ networkFields →
      networkMetricName k1 f1 = networkMetricName k2 f2 → k1 = k2 ∧ f1 = f2) ∧
    ((networkStatsSection (some r)).sent.map Metric.name).Nodup ∧
    (networkStatsSection (some r)).sent.map Metric.name <+:
      r.Result.Network.flatMap (fun entry => networkFields.map (networkMetricName entry.1)) ∧
    ((∀ k ∈ r.Result.Network.map Prod.fst, validKey k = true) →
      (networkStatsSection (some r)).sent.map Metric.name =
        r.Result.Network.flatMap
          (fun entry => networkFields.map (networkMetricName entry.1)) ∧
      (networkStatsSection (some r)).sent.length = 9 * r.Result.Network.length) := by
  have hpre := networkStatsSection_names_prefix r
  refine ⟨fun k1 k2 f1 f2 h1 h2 h => networkMetricName_inj h1 h2 h,
    (network_names_nodup _ hnd).sublist hpre.sublist, hpre, fun hvalid => ?_⟩
  have hnames := networkStatsSection_names_eq r hvalid
  refine ⟨hnames, ?_⟩
  have hlen := congrArg List.length hnames
  rw [List.length_map] at hlen
  rw [hlen]
  generalize r.Result.Network = net
  induction net with
  | nil => rfl
  | cons entry net ih =>
    rw [List.flatMap_cons, List.length_append, ih, List.length_map, List.length_cons]
    have : networkFields.length = 9 := rfl
    omega

/-- C13 at the interfaces `eth0` and `eth0_rx`: the eighteen names are pairwise
distinct. -/
theorem C13_network_names_injective_witness :
    ((networkStatsSection (some extendingStats)).sent.map Metric.name).Nodup :=
  (C13_network_names_injective extendingStats (by decide)).2.1

/-- C14 (the code at the failing input): with `process_stats` selected and a
successfully decoded stats answer, an empty sample sequence makes the
`process_stats` section panic on `MoonrakerStats[len(MoonrakerStats)-1]`, and
the cycle ends by that panic right after the stats call, with nothing sent; a
non-empty sample sequence makes the section complete. -/
theorem C14_empty_samples_panic (c : collector) (up : Upstream) (r : ProcessStatsResponse)
    (hsel : str "process_stats" ∈ c.modules)
    (hfetch : up.procStats c.target = Fetched.ok r) :
    (r.Result.MoonrakerStats = [] →
      (processStatsSection (some r)).completion = Completion.panicked ∧
      Collect c up =
        { completion := Completion.panicked, sent := [], calls := [Endpoint.procStats] }) ∧
    (r.Result.MoonrakerStats ≠ [] →
      (processStatsSection (some r)).completion = Completion.normal ()) := by
  constructor
  · intro hempty
    have hsec : processStatsSection (some r) = goPanic := by
      simp only [processStatsSection, deref, bind_eq, pure_bind_eq, hempty, index_nil,
        goPanic_bind]
    have hps : Contains c.modules (str "process_stats") = true := contains_iff.mpr hsel
    refine ⟨by rw [hsec]; rfl, ?_⟩
    simp [Collect, statsBranch, hps, ifThen, bind_eq, fetchMoonrakerProcessStats_eq, hfetch,
      Fetched.ok, hsec, GoM.bind, pure_eq, goPanic]
  · intro hne
    rw [processStatsSection_sent r hne]

/-- C14 at the module list `[process_stats]` and a stats answer without
samples: the cycle panics. -/
theorem C14_empty_samples_panic_witness :
    Collect (New (str "printer") [str "process_stats"]) noSampleUpstream =
      { completion := Completion.panicked, sent := [], calls := [Endpoint.procStats] } :=
  ((C14_empty_samples_panic (New (str "printer") [str "process_stats"]) noSampleUpstream
    noSampleStats (by decide) rfl).1 rfl).2

end KlipperExporter
